import Mathlib

/-!
Verification development for the ux-color-engine (chroma-ux), a zero-dependency
color token generator built on OKLab/OKLCH conversions, WCAG contrast, CVD
simulation and simulated annealing.  The JavaScript source (src/index.js) is
shallowly embedded below.

Modelling conventions:
* JavaScript numbers are modelled by `JsNum`: either NaN, +Infinity,
  -Infinity, or an exact rational.  Arithmetic follows IEEE/JS semantics for
  the special values (NaN propagates, comparisons with NaN are false).
  Rounding of ordinary double arithmetic is not modelled: ordinary values are
  exact rationals.
* The transcendental primitives (Math.pow with exponents 2.4 and 1/2.4,
  Math.cbrt, Math.sqrt, Math.cos, Math.sin, Math.atan2, Math.exp) are
  irrational-valued and are abstracted as an oracle record `RealFns` of
  rational-valued functions; every definition is parameterized by the oracle
  and every universally quantified theorem holds for all oracles, hence in
  particular for (any rational reading of) the real functions.  The degree
  conversions (H*PI/180 and atan2(..)*180/PI) are folded into the oracle
  (`cosDeg`, `sinDeg`, `atan2Deg`).  The oracles are lifted to `JsNum` by
  mapping NaN to NaN (as Math.pow/cbrt/sqrt/cos/sin/atan2/exp all do); the
  lift maps +-Infinity to NaN, a case that is unreachable at the call sites
  (those arguments are built from finite rationals and NaN only).
* Fallible code (thrown exceptions) is modelled with `Except String`.
-/

/- Batteries marks the rational primitives `@[irreducible]`; closed witnesses
and counterexamples below evaluate by `decide`, which needs them to unfold
during elaboration (the kernel itself ignores reducibility). -/
set_option allowUnsafeReducibility true in
attribute [semireducible] Rat.add Rat.mul Rat.sub Rat.inv Rat.div Rat.ofScientific

set_option maxRecDepth 4000000

deriving instance DecidableEq for Except

/-- Kernel-computable floor of a rational (`Int.fdiv` is floor division and
`q.den` is positive), used instead of `Int.floor` so that closed witnesses
evaluate by `decide`. -/
def qfloor (q : ℚ) : ℤ := Int.fdiv q.num q.den

/-- `String.trim` (JS `.trim()`), reimplemented by structural recursion on the
character list so that the kernel can evaluate it (the ASCII whitespace cases
of `Char.isWhitespace` match the JS behavior on the inputs involved). -/
def jsTrim (s : String) : String :=
  String.mk
    ((((s.data.dropWhile Char.isWhitespace).reverse.dropWhile Char.isWhitespace).reverse))

/-- Uppercase an ASCII character (JS `.toUpperCase()` on the ASCII strings the
source manipulates). -/
def upChar (c : Char) : Char :=
  if decide ('a' ≤ c) && decide (c ≤ 'z') then Char.ofNat (c.toNat - 32) else c

/-- JS `.toUpperCase()` (ASCII), reimplemented structurally. -/
def jsToUpper (s : String) : String := String.mk (s.data.map upChar)

/- ============================================================
   JS number model
   ============================================================ -/

inductive JsNum where
  | nan : JsNum
  | inf : JsNum
  | ninf : JsNum
  | num : ℚ → JsNum
deriving DecidableEq, Inhabited, Repr

namespace JsNum

def add : JsNum → JsNum → JsNum
  | num a, num b => num (a + b)
  | nan, _ => nan
  | _, nan => nan
  | inf, ninf => nan
  | ninf, inf => nan
  | inf, _ => inf
  | _, inf => inf
  | ninf, _ => ninf
  | _, ninf => ninf

def neg : JsNum → JsNum
  | nan => nan
  | inf => ninf
  | ninf => inf
  | num a => num (-a)

def sub (a b : JsNum) : JsNum := add a (neg b)

def mul : JsNum → JsNum → JsNum
  | num a, num b => num (a * b)
  | nan, _ => nan
  | _, nan => nan
  | inf, inf => inf
  | inf, ninf => ninf
  | ninf, inf => ninf
  | ninf, ninf => inf
  | inf, num b => if 0 < b then inf else if b < 0 then ninf else nan
  | num a, inf => if 0 < a then inf else if a < 0 then ninf else nan
  | ninf, num b => if 0 < b then ninf else if b < 0 then inf else nan
  | num a, ninf => if 0 < a then ninf else if a < 0 then inf else nan

/-- JS division.  Signed zero is not modelled: division of a nonzero value by
zero picks the sign of the dividend (`x/0 = Infinity` for `x > 0`), matching
JS for positive zero.  No executed call site divides by zero. -/
def div : JsNum → JsNum → JsNum
  | num a, num b =>
      if b = 0 then (if a = 0 then nan else if 0 < a then inf else ninf)
      else num (a / b)
  | nan, _ => nan
  | _, nan => nan
  | inf, inf => nan
  | inf, ninf => nan
  | ninf, inf => nan
  | ninf, ninf => nan
  | inf, num b => if b < 0 then ninf else inf
  | ninf, num b => if b < 0 then inf else ninf
  | num _, inf => num 0
  | num _, ninf => num 0

/-- JS `<` (false whenever an operand is NaN). -/
def lt : JsNum → JsNum → Bool
  | num a, num b => decide (a < b)
  | nan, _ => false
  | _, nan => false
  | inf, _ => false
  | ninf, ninf => false
  | ninf, _ => true
  | num _, inf => true
  | num _, ninf => false

/-- JS `<=` (false whenever an operand is NaN). -/
def le : JsNum → JsNum → Bool
  | num a, num b => decide (a ≤ b)
  | nan, _ => false
  | _, nan => false
  | ninf, _ => true
  | _, inf => true
  | inf, _ => false
  | num _, ninf => false

def gt (a b : JsNum) : Bool := lt b a

def ge (a b : JsNum) : Bool := le b a

/-- Math.min (returns NaN if either argument is NaN). -/
def jmin : JsNum → JsNum → JsNum
  | nan, _ => nan
  | _, nan => nan
  | a, b => if lt b a then b else a

/-- Math.max (returns NaN if either argument is NaN). -/
def jmax : JsNum → JsNum → JsNum
  | nan, _ => nan
  | _, nan => nan
  | a, b => if lt a b then b else a

def abs : JsNum → JsNum
  | nan => nan
  | inf => inf
  | ninf => inf
  | num a => num |a|

/-- Math.floor. -/
def floor : JsNum → JsNum
  | nan => nan
  | inf => inf
  | ninf => ninf
  | num a => num (qfloor a)

/-- Math.round (= floor(x + 1/2) for finite x, including negative ties). -/
def round (x : JsNum) : JsNum := floor (add x (num (1/2)))

def isNum : JsNum → Bool
  | num _ => true
  | _ => false

instance : Add JsNum := ⟨add⟩
instance : Sub JsNum := ⟨sub⟩
instance : Mul JsNum := ⟨mul⟩
instance : Div JsNum := ⟨div⟩
instance : Neg JsNum := ⟨neg⟩
instance (n : ℕ) : OfNat JsNum n := ⟨num n⟩
instance : OfScientific JsNum := ⟨fun m e d => num (OfScientific.ofScientific m e d)⟩

end JsNum

/- ============================================================
   Oracle record for the transcendental Math primitives
   ============================================================ -/

/-- Rational-valued stand-ins for the irrational Math primitives used by the
source.  `pow24 x` models `Math.pow(x, 2.4)`, `powInv24 x` models
`Math.pow(x, 1/2.4)`, `cosDeg h` models `Math.cos((h * Math.PI) / 180)`,
`sinDeg` likewise, `atan2Deg b a` models `(Math.atan2(b, a) * 180) / Math.PI`,
and `exp`, `cbrt`, `sqrt` model the like-named Math functions on finite
non-NaN inputs. -/
structure RealFns where
  pow24 : ℚ → ℚ
  powInv24 : ℚ → ℚ
  cbrt : ℚ → ℚ
  sqrt : ℚ → ℚ
  cosDeg : ℚ → ℚ
  sinDeg : ℚ → ℚ
  atan2Deg : ℚ → ℚ → ℚ
  exp : ℚ → ℚ

/-- Lift a rational oracle to `JsNum`: NaN maps to NaN (as every modelled Math
primitive does).  +-Infinity also maps to NaN; no executed call site passes an
infinity. -/
def jlift (f : ℚ → ℚ) : JsNum → JsNum
  | JsNum.num q => JsNum.num (f q)
  | _ => JsNum.nan

/-- atan2 lifted to `JsNum` (NaN in either coordinate gives NaN). -/
def jatan2 (f : ℚ → ℚ → ℚ) : JsNum → JsNum → JsNum
  | JsNum.num b, JsNum.num a => JsNum.num (f b a)
  | _, _ => JsNum.nan

/-- A concrete oracle instance used by closed witnesses and counterexamples
(`Math.pow`-style maps read as the identity, angles as zero). -/
def idFns : RealFns :=
  { pow24 := fun q => q
    powInv24 := fun q => q
    cbrt := fun q => q
    sqrt := fun q => q
    cosDeg := fun _ => 0
    sinDeg := fun _ => 0
    atan2Deg := fun _ _ => 0
    exp := fun _ => 0 }

/- ============================================================
   Deterministic RNG (xorshift)  [src/index.js lines 19-40]
   ============================================================ -/

/-- Bitwise XOR by structural recursion on a fuel bound (64 bits covers every
value arising below); `Nat.xor` itself is defined by well-founded recursion,
which the kernel cannot evaluate. -/
def natXorAux : ℕ → ℕ → ℕ → ℕ
  | 0, _, _ => 0
  | f + 1, a, b => (if a % 2 = b % 2 then 0 else 1) + 2 * natXorAux f (a / 2) (b / 2)

def natXor (a b : ℕ) : ℕ := natXorAux 64 a b

/-- One xorshift32 update: `x ^= x << 13; x ^= x >>> 17; x ^= x << 5` on
32-bit words, followed by the `>>> 0` coercion (`<< 13` is `* 8192`,
`>>> 17` is `/ 131072`, `<< 5` is `* 32`, and `>>> 0` is `% 2^32`). -/
def xorshift (s : ℕ) : ℕ :=
  let x1 := natXor s (s * 8192) % 4294967296
  let x2 := natXor x1 (x1 / 131072)
  natXor x2 (x2 * 32) % 4294967296

/-- `RNG.next()`: update the state, return `state / 0xffffffff` together with
the new state. -/
def rngNext (s : ℕ) : ℚ × ℕ :=
  let s1 := xorshift s
  (((s1 : ℤ) : ℚ) / 4294967295, s1)

/-- `RNG.int(lo, hi) = Math.floor(next() * (hi - lo + 1)) + lo`. -/
def rngInt (s : ℕ) (lo hi : ℤ) : ℤ × ℕ :=
  let v := rngNext s
  (qfloor (v.1 * ((hi : ℚ) - lo + 1)) + lo, v.2)

/-- `RNG.float(lo, hi) = next() * (hi - lo) + lo`. -/
def rngFloat (s : ℕ) (lo hi : ℚ) : ℚ × ℕ :=
  let v := rngNext s
  (v.1 * (hi - lo) + lo, v.2)

/-- `RNG.pick(arr) = arr[this.int(0, arr.length - 1)]`; an out-of-range index
reads as JS `undefined`, modelled by `none`. -/
def rngPick {α : Type} (arr : List α) (s : ℕ) : Option α × ℕ :=
  let iv := rngInt s 0 ((arr.length : ℤ) - 1)
  ((if iv.1 < 0 then none else arr.get? iv.1.toNat), iv.2)

/- ============================================================
   Helpers  [lines 45-58]
   ============================================================ -/

/-- `clamp(x, lo, hi) = Math.min(hi, Math.max(lo, x))`. -/
def jclamp (x lo hi : JsNum) : JsNum := JsNum.jmin hi (JsNum.jmax lo x)

/-- Truncating (toward-zero) integer part, as used by the JS `%` operator. -/
def qtrunc (q : ℚ) : ℤ := if 0 ≤ q then qfloor q else -qfloor (-q)

/-- `mod360(h) = let x = h % 360; if (x < 0) x += 360; x`.  JS `%` on
infinities yields NaN; on NaN it yields NaN (and `NaN < 0` is false). -/
def mod360 : JsNum → JsNum
  | JsNum.num q =>
      let r := q - 360 * qtrunc (q / 360)
      if r < 0 then JsNum.num (r + 360) else JsNum.num r
  | _ => JsNum.nan

/-- `hueDistance(a, b) = min(|mod360(a) - mod360(b)|, 360 - that)`. -/
def hueDistance (a b : JsNum) : JsNum :=
  let d := JsNum.abs (mod360 a - mod360 b)
  JsNum.jmin d (360 - d)

/- ============================================================
   Color conversions  [lines 64-172]
   ============================================================ -/

structure Rgb where
  r : JsNum
  g : JsNum
  b : JsNum
deriving DecidableEq, Inhabited, Repr

structure Lab where
  L : JsNum
  a : JsNum
  b : JsNum
deriving DecidableEq, Inhabited, Repr

structure Lch where
  L : JsNum
  C : JsNum
  H : JsNum
deriving DecidableEq, Inhabited, Repr

def isHexDigitChar (c : Char) : Bool :=
  (decide ('0' ≤ c) && decide (c ≤ '9')) ||
  (decide ('a' ≤ c) && decide (c ≤ 'f')) ||
  (decide ('A' ≤ c) && decide (c ≤ 'F'))

def hexDigitVal (c : Char) : ℕ :=
  if decide ('0' ≤ c) && decide (c ≤ '9') then c.toNat - '0'.toNat
  else if decide ('a' ≤ c) && decide (c ≤ 'f') then c.toNat - 'a'.toNat + 10
  else if decide ('A' ≤ c) && decide (c ≤ 'F') then c.toNat - 'A'.toNat + 10
  else 0

def hexDigitsVal (cs : List Char) : ℕ :=
  cs.foldl (fun a c => a * 16 + hexDigitVal c) 0

/-- JS `parseInt(str, 16)`: skip leading whitespace, read an optional sign,
strip an optional `0x`/`0X` prefix, then take the longest prefix of hex
digits; NaN when that prefix is empty. -/
def parseIntHex (cs : List Char) : JsNum :=
  let cs1 := cs.dropWhile Char.isWhitespace
  let sgn : ℤ × List Char :=
    match cs1 with
    | '-' :: t => (-1, t)
    | '+' :: t => (1, t)
    | _ => (1, cs1)
  let cs2 :=
    match sgn.2 with
    | '0' :: x :: t => if x = 'x' ∨ x = 'X' then t else sgn.2
    | _ => sgn.2
  let ds := cs2.takeWhile isHexDigitChar
  if ds.isEmpty then JsNum.nan
  else JsNum.num ((sgn.1 : ℚ) * ((hexDigitsVal ds : ℤ) : ℚ))

/-- `hex.trim().replace(/^#/, "")`. -/
def stripHexInput (s : String) : List Char :=
  let t := (jsTrim s).data
  match t with
  | '#' :: rest => rest
  | _ => t

/-- `hexToRgb`  [lines 64-71].  Throws exactly when the trimmed,
`#`-stripped content does not have length 6; the three channels are
`parseInt(slice, 16) / 255` and may be NaN when the slice holds non-hex
characters. -/
def hexToRgb (hex : String) : Except String Rgb :=
  let h := stripHexInput hex
  if h.length ≠ 6 then Except.error ("Invalid hex: " ++ hex)
  else
    Except.ok
      { r := parseIntHex (h.take 2) / 255
        g := parseIntHex ((h.drop 2).take 2) / 255
        b := parseIntHex ((h.drop 4).take 2) / 255 }

/-- Lowercase base-16 rendering of `Math.round`'s output followed by
`padStart(2, "0")`.  `(NaN).toString(16)` is `"NaN"`; only the `num` case for
non-negative integers (the outputs of `round (clamp _ 0 1 * 255)`) is
exercised by the source. -/
def hex2OfNat (n : ℕ) : String :=
  let s := String.mk (Nat.toDigits 16 n)
  if s.length < 2 then "0" ++ s else s

def toHex2 : JsNum → String
  | JsNum.nan => "NaN"
  | JsNum.inf => "Infinity"
  | JsNum.ninf => "-Infinity"
  | JsNum.num q => hex2OfNat (Int.toNat (qfloor q))

/-- `rgbToHex`  [lines 73-86]. -/
def rgbToHex (rgb : Rgb) : String :=
  let r := jclamp rgb.r 0 1
  let g := jclamp rgb.g 0 1
  let b := jclamp rgb.b 0 1
  let ri := JsNum.round (r * 255)
  let gi := JsNum.round (g * 255)
  let bi := JsNum.round (b * 255)
  jsToUpper ("#" ++ toHex2 ri ++ toHex2 gi ++ toHex2 bi)

/-- `srgbToLinear`  [lines 88-91]. -/
def srgbToLinear (F : RealFns) (c : JsNum) : JsNum :=
  if JsNum.le c 0.04045 then c / 12.92 else jlift F.pow24 ((c + 0.055) / 1.055)

/-- `linearToSrgb`  [lines 93-96]. -/
def linearToSrgb (F : RealFns) (c : JsNum) : JsNum :=
  if JsNum.le c 0.0031308 then 12.92 * c else 1.055 * jlift F.powInv24 c - 0.055

def rgbToLinearRgb (F : RealFns) (rgb : Rgb) : Rgb :=
  { r := srgbToLinear F rgb.r, g := srgbToLinear F rgb.g, b := srgbToLinear F rgb.b }

def linearRgbToRgb (F : RealFns) (rgb : Rgb) : Rgb :=
  { r := linearToSrgb F rgb.r, g := linearToSrgb F rgb.g, b := linearToSrgb F rgb.b }

/-- `linearRgbToOklab`  [lines 106-124]. -/
def linearRgbToOklab (F : RealFns) (rgb : Rgb) : Lab :=
  let r := rgb.r
  let g := rgb.g
  let b := rgb.b
  let l := 0.4122214708 * r + 0.5363325363 * g + 0.0514459929 * b
  let m := 0.2119034982 * r + 0.6806995451 * g + 0.1073969566 * b
  let s := 0.0883024619 * r + 0.2817188376 * g + 0.6299787005 * b
  let l2 := jlift F.cbrt l
  let m2 := jlift F.cbrt m
  let s2 := jlift F.cbrt s
  { L := 0.2104542553 * l2 + 0.793617785 * m2 - 0.0040720468 * s2
    a := 1.9779984951 * l2 - 2.428592205 * m2 + 0.4505937099 * s2
    b := 0.0259040371 * l2 + 0.7827717662 * m2 - 0.808675766 * s2 }

/-- `oklabToLinearRgb`  [lines 126-144] (purely polynomial). -/
def oklabToLinearRgb (lab : Lab) : Rgb :=
  let l2 := lab.L + 0.3963377774 * lab.a + 0.2158037573 * lab.b
  let m2 := lab.L - 0.1055613458 * lab.a - 0.0638541728 * lab.b
  let s2 := lab.L - 0.0894841775 * lab.a - 1.291485548 * lab.b
  let l := l2 * l2 * l2
  let m := m2 * m2 * m2
  let s := s2 * s2 * s2
  { r := 4.0767416621 * l - 3.3077115913 * m + 0.2309699292 * s
    g := -1.2684380046 * l + 2.6097574011 * m - 0.3413193965 * s
    b := -0.0041960863 * l - 0.7034186147 * m + 1.707614701 * s }

/-- `oklabToOklch`  [lines 146-150]. -/
def oklabToOklch (F : RealFns) (lab : Lab) : Lch :=
  { L := lab.L
    C := jlift F.sqrt (lab.a * lab.a + lab.b * lab.b)
    H := mod360 (jatan2 F.atan2Deg lab.b lab.a) }

/-- `oklchToOklab`  [lines 152-156]. -/
def oklchToOklab (F : RealFns) (lch : Lch) : Lab :=
  { L := lch.L
    a := lch.C * jlift F.cosDeg lch.H
    b := lch.C * jlift F.sinDeg lch.H }

/-- `hexToOklch`  [lines 158-163]. -/
def hexToOklch (F : RealFns) (hex : String) : Except String Lch := do
  let rgb ← hexToRgb hex
  let lin := rgbToLinearRgb F rgb
  let lab := linearRgbToOklab F lin
  Except.ok (oklabToOklch F lab)

structure HexResult where
  hex : String
  inGamut : Bool
deriving DecidableEq, Inhabited, Repr

/-- `oklchToHex`  [lines 165-172]. -/
def oklchToHex (F : RealFns) (lch : Lch) : HexResult :=
  let lab := oklchToOklab F lch
  let lin := oklabToLinearRgb lab
  let rgb := linearRgbToRgb F lin
  let inGamut :=
    JsNum.ge rgb.r 0 && JsNum.le rgb.r 1 && JsNum.ge rgb.g 0 && JsNum.le rgb.g 1 &&
    JsNum.ge rgb.b 0 && JsNum.le rgb.b 1
  { hex := rgbToHex rgb, inGamut := inGamut }

/- ============================================================
   WCAG contrast  [lines 177-199]
   ============================================================ -/

/-- `relativeLuminance`  [lines 177-182]. -/
def relativeLuminance (F : RealFns) (rgb : Rgb) : JsNum :=
  0.2126 * srgbToLinear F rgb.r + 0.7152 * srgbToLinear F rgb.g +
    0.0722 * srgbToLinear F rgb.b

/-- `contrastRatio`  [lines 184-192]. -/
def contrastRatio (F : RealFns) (fgHex bgHex : String) : Except String JsNum := do
  let fg ← hexToRgb fgHex
  let bg ← hexToRgb bgHex
  let L1 := relativeLuminance F fg
  let L2 := relativeLuminance F bg
  let lighter := JsNum.jmax L1 L2
  let darker := JsNum.jmin L1 L2
  Except.ok ((lighter + 0.05) / (darker + 0.05))

structure TargetMins where
  normal : ℚ
  large : ℚ
deriving DecidableEq, Inhabited, Repr

/-- `targetContrast`  [lines 194-199]; any string other than `"AAA"` selects
the AA thresholds. -/
def targetContrast (target : String) : TargetMins :=
  if target = "AAA" then { normal := 7.0, large := 4.5 }
  else { normal := 4.5, large := 3.0 }

/- ============================================================
   CVD simulation  [lines 204-230]
   ============================================================ -/

structure Mat3 where
  m00 : ℚ
  m01 : ℚ
  m02 : ℚ
  m10 : ℚ
  m11 : ℚ
  m12 : ℚ
  m20 : ℚ
  m21 : ℚ
  m22 : ℚ
deriving DecidableEq, Inhabited, Repr

/-- `CVD_MATS`  [lines 204-220]; an unknown mode has no matrix (indexing it in
JS would crash, modelled as a thrown error in `applyCvd`). -/
def cvdMat (mode : String) : Option Mat3 :=
  if mode = "protan" then
    some ⟨0.56667, 0.43333, 0, 0.55833, 0.44167, 0, 0, 0.24167, 0.75833⟩
  else if mode = "deutan" then
    some ⟨0.625, 0.375, 0, 0.7, 0.3, 0, 0, 0.3, 0.7⟩
  else if mode = "tritan" then
    some ⟨0.95, 0.05, 0, 0, 0.43333, 0.56667, 0, 0.475, 0.525⟩
  else none

/-- `applyCvd`  [lines 222-230] (no transcendental primitive is involved). -/
def applyCvd (hex mode : String) : Except String String :=
  if mode = "none" then Except.ok (jsToUpper hex)
  else
    match cvdMat mode with
    | none => Except.error ("unknown CVD mode: " ++ mode)
    | some mat => do
        let rgb ← hexToRgb hex
        let r := jclamp (JsNum.num mat.m00 * rgb.r + JsNum.num mat.m01 * rgb.g + JsNum.num mat.m02 * rgb.b) 0 1
        let g := jclamp (JsNum.num mat.m10 * rgb.r + JsNum.num mat.m11 * rgb.g + JsNum.num mat.m12 * rgb.b) 0 1
        let b := jclamp (JsNum.num mat.m20 * rgb.r + JsNum.num mat.m21 * rgb.g + JsNum.num mat.m22 * rgb.b) 0 1
        Except.ok (rgbToHex { r := r, g := g, b := b })

/-- `deltaEoklab`  [lines 235-244]. -/
def deltaEoklab (F : RealFns) (hex1 hex2 : String) : Except String JsNum := do
  let lch1 ← hexToOklch F hex1
  let lch2 ← hexToOklch F hex2
  let lab1 := oklchToOklab F lch1
  let lab2 := oklchToOklab F lch2
  let dL := lab1.L - lab2.L
  let da := lab1.a - lab2.a
  let db := lab1.b - lab2.b
  Except.ok (jlift F.sqrt (dL * dL + da * da + db * db))

/- ============================================================
   Token param model (primary fixed)  [lines 249-315]
   ============================================================ -/

structure Weights where
  contrast : ℚ
  toneSystem : ℚ
  emphasis : ℚ
  harmony : ℚ
  cvdRobust : ℚ
  semanticSeparation : ℚ
  gamutPenalty : ℚ
  stateContrast : ℚ
deriving DecidableEq, Inhabited, Repr

structure WeightsOverride where
  contrast : Option ℚ := none
  toneSystem : Option ℚ := none
  emphasis : Option ℚ := none
  harmony : Option ℚ := none
  cvdRobust : Option ℚ := none
  semanticSeparation : Option ℚ := none
  gamutPenalty : Option ℚ := none
  stateContrast : Option ℚ := none
deriving DecidableEq, Inhabited, Repr

/-- `defaultWeights(overrides)`  [lines 249-261]. -/
def defaultWeights (overrides : Option WeightsOverride) : Weights :=
  let o := overrides.getD {}
  { contrast := o.contrast.getD 3.2
    toneSystem := o.toneSystem.getD 1.1
    emphasis := o.emphasis.getD 1.3
    harmony := o.harmony.getD 0.7
    cvdRobust := o.cvdRobust.getD 1.4
    semanticSeparation := o.semanticSeparation.getD 1.0
    gamutPenalty := o.gamutPenalty.getD 2.0
    stateContrast := o.stateContrast.getD 1.4 }

/-- `lch(L, C, H)`  [lines 263-265]: clamp L to [0,1], floor C at 0, wrap H. -/
def lch (L C H : JsNum) : Lch :=
  { L := jclamp L 0 1, C := JsNum.jmax 0 C, H := mod360 H }

/-- `pickTextOn`  [lines 267-270]. -/
def pickTextOn (F : RealFns) (fillHex : String) : Except String String := do
  let rgb ← hexToRgb fillHex
  let lum := relativeLuminance F rgb
  Except.ok (if JsNum.gt lum 0.5 then "#000000" else "#FFFFFF")

structure FillStates where
  hover : String
  pressed : String
  disabled : String
deriving DecidableEq, Inhabited, Repr

/-- `deriveFillStates`  [lines 272-287]. -/
def deriveFillStates (F : RealFns) (baseHex mode : String) : Except String FillStates := do
  let base ← hexToOklch F baseHex
  let dir : JsNum := if mode = "light" then -1 else 1
  let hoverL := jclamp (base.L + dir * 0.04) 0 1
  let pressedL := jclamp (base.L + dir * 0.08) 0 1
  let disabledL := jclamp (if mode = "light" then 0.85 else 0.25) 0 1
  let disabledC := JsNum.jmin base.C 0.02
  Except.ok
    { hover := (oklchToHex F (lch hoverL base.C base.H)).hex
      pressed := (oklchToHex F (lch pressedL base.C base.H)).hex
      disabled := (oklchToHex F (lch disabledL disabledC base.H)).hex }

/-- `deriveSubtleBg`  [lines 289-301]. -/
def deriveSubtleBg (F : RealFns) (baseHex bgHex mode : String) : Except String String := do
  let base ← hexToOklch F baseHex
  let bg ← hexToOklch F bgHex
  let targetL :=
    jclamp
      (if mode = "light" then JsNum.jmax (bg.L - 0.05) 0.88
       else JsNum.jmin (bg.L + 0.1) 0.22)
      0 1
  let C := JsNum.jmin 0.05 (JsNum.jmax 0.02 (base.C * 0.35))
  Except.ok (oklchToHex F (lch targetL C base.H)).hex

/-- `deriveBorderFrom`  [lines 303-308]. -/
def deriveBorderFrom (F : RealFns) (refHex mode : String) (deltaL hue : JsNum) :
    Except String String := do
  let ref ← hexToOklch F refHex
  let L := jclamp (ref.L + (if mode = "light" then -deltaL else deltaL)) 0 1
  let C := JsNum.jmin 0.02 (JsNum.jmax 0.004 ref.C)
  Except.ok (oklchToHex F (lch L C hue)).hex

/-- `deriveFocusRing`  [lines 310-315]. -/
def deriveFocusRing (F : RealFns) (fromHex mode : String) (cBoost targetL : JsNum) :
    Except String String := do
  let src ← hexToOklch F fromHex
  let C := jclamp (src.C + cBoost) 0.08 0.26
  let L := jclamp targetL 0.25 0.85
  Except.ok (oklchToHex F (lch L C src.H)).hex

/- ============================================================
   Parameter vector and token set
   ============================================================ -/

/-- The annealing genome built by `initParams` and mutated by `mutateParams`.
All numeric fields carry `JsNum` (hue fields can be NaN when a malformed
`seedHex` leaks NaN hues).  `focusFrom` holds `rng.pick(["primary","accent"])`,
which can be JS `undefined` (`none`) on an out-of-range pick. -/
structure Params where
  seedHue : JsNum
  neutralHue : JsNum
  neutralC : JsNum
  bgL : JsNum
  surfaceDeltaL : JsNum
  surface2DeltaL : JsNum
  textPrimaryL : JsNum
  textSecondaryL : JsNum
  textTertiaryL : JsNum
  secondaryHue : JsNum
  secondaryC : JsNum
  secondaryL : JsNum
  accentHue : JsNum
  accentC : JsNum
  accentL : JsNum
  successHue : JsNum
  warningHue : JsNum
  dangerHue : JsNum
  infoHue : JsNum
  semanticC : JsNum
  successL : JsNum
  warningL : JsNum
  dangerL : JsNum
  infoL : JsNum
  borderDeltaL : JsNum
  dividerDeltaL : JsNum
  focusFrom : Option String
  focusCBoost : JsNum
  focusL : JsNum
deriving DecidableEq, Inhabited, Repr

structure ButtonTokens where
  bg : String
  text : String
  hoverBg : String
  pressedBg : String
  disabledBg : String
  disabledText : String
deriving DecidableEq, Inhabited, Repr

structure SemanticStates where
  base : String
  onBaseText : String
  subtleBg : String
  subtleText : String
  border : String
  hover : String
  pressed : String
deriving DecidableEq, Inhabited, Repr

structure SemanticGroup where
  success : SemanticStates
  warning : SemanticStates
  danger : SemanticStates
  info : SemanticStates
deriving DecidableEq, Inhabited, Repr

structure TokenSet where
  mode : String
  background : String
  surface : String
  surface2 : String
  textPrimary : String
  textSecondary : String
  textTertiary : String
  primary : String
  primaryText : String
  secondary : String
  secondaryText : String
  accent : String
  accentText : String
  border : String
  divider : String
  focusRing : String
  buttonPrimary : ButtonTokens
  buttonSecondary : ButtonTokens
  semantic : SemanticGroup
deriving DecidableEq, Inhabited, Repr

structure LinfoT where
  background : JsNum
  surface : JsNum
  surface2 : JsNum
  textPrimary : JsNum
  textSecondary : JsNum
  textTertiary : JsNum
  primary : JsNum
  secondary : JsNum
  accent : JsNum
deriving DecidableEq, Inhabited, Repr

structure BuildResult where
  tokens : TokenSet
  gamutCount : ℕ
  Linfo : LinfoT
deriving DecidableEq, Inhabited, Repr

/-- `normalizeHex`  [lines 494-498]. -/
def normalizeHex (hex : String) : String :=
  let h := jsToUpper (jsTrim hex)
  if h.data.head? = some '#' then h else jsToUpper ("#" ++ h)

/-- `buildSemanticStates`  [lines 472-492]. -/
def buildSemanticStates (F : RealFns) (baseHex bgHex mode : String) :
    Except String SemanticStates := do
  let base := normalizeHex baseHex
  let onBaseText ← pickTextOn F base
  let subtleBg ← deriveSubtleBg F base bgHex mode
  let subtleText := normalizeHex base
  let baseLch ← hexToOklch F base
  let border ← deriveBorderFrom F subtleBg mode 0.04 baseLch.H
  let states ← deriveFillStates F base mode
  Except.ok
    { base := base
      onBaseText := onBaseText
      subtleBg := subtleBg
      subtleText := subtleText
      border := border
      hover := states.hover
      pressed := states.pressed }

/-- `buildTokens`  [lines 317-470]. -/
def buildTokens (F : RealFns) (params : Params) (mode primaryHexFixed : String) :
    Except String BuildResult := do
  let bg := oklchToHex F (lch params.bgL params.neutralC params.neutralHue)
  let surface :=
    oklchToHex F
      (lch
        (jclamp
          (params.bgL + (if mode = "light" then -params.surfaceDeltaL else params.surfaceDeltaL))
          0 1)
        (params.neutralC * 1.05) params.neutralHue)
  let surface2 :=
    oklchToHex F
      (lch
        (jclamp
          (params.bgL +
            (if mode = "light" then -params.surface2DeltaL else params.surface2DeltaL))
          0 1)
        (params.neutralC * 1.1) params.neutralHue)
  let textPrimary := oklchToHex F (lch params.textPrimaryL (params.neutralC * 0.12) params.neutralHue)
  let textSecondary := oklchToHex F (lch params.textSecondaryL (params.neutralC * 0.14) params.neutralHue)
  let textTertiary := oklchToHex F (lch params.textTertiaryL (params.neutralC * 0.16) params.neutralHue)
  let secondary := oklchToHex F (lch params.secondaryL params.secondaryC params.secondaryHue)
  let accent := oklchToHex F (lch params.accentL params.accentC params.accentHue)
  let primaryHex := normalizeHex primaryHexFixed
  let primaryLch ← hexToOklch F primaryHex
  let border ← deriveBorderFrom F surface.hex mode params.borderDeltaL params.neutralHue
  let divider ← deriveBorderFrom F surface2.hex mode params.dividerDeltaL params.neutralHue
  let focusSourceHex := if params.focusFrom = some "primary" then primaryHex else accent.hex
  let focusRing ← deriveFocusRing F focusSourceHex mode params.focusCBoost params.focusL
  let primaryText ← pickTextOn F primaryHex
  let primaryStates ← deriveFillStates F primaryHex mode
  let primaryDisabledText := if mode = "light" then "#9AA0A6" else "#6B7280"
  let secondaryTextOn ← pickTextOn F secondary.hex
  let secondaryStates ← deriveFillStates F secondary.hex mode
  let secondaryDisabledText := primaryDisabledText
  let buttonPrimary : ButtonTokens :=
    { bg := primaryHex
      text := primaryText
      hoverBg := primaryStates.hover
      pressedBg := primaryStates.pressed
      disabledBg := primaryStates.disabled
      disabledText := secondaryDisabledText }
  let buttonSecondary : ButtonTokens :=
    { bg := secondary.hex
      text := secondaryTextOn
      hoverBg := secondaryStates.hover
      pressedBg := secondaryStates.pressed
      disabledBg := secondaryStates.disabled
      disabledText := secondaryDisabledText }
  let successBase := oklchToHex F (lch params.successL params.semanticC params.successHue)
  let warningBase := oklchToHex F (lch params.warningL params.semanticC params.warningHue)
  let dangerBase := oklchToHex F (lch params.dangerL params.semanticC params.dangerHue)
  let infoBase := oklchToHex F (lch params.infoL params.semanticC params.infoHue)
  let semList :=
    [bg, surface, surface2, textPrimary, textSecondary, textTertiary, secondary, accent,
      successBase, warningBase, dangerBase, infoBase]
  let gamutCount := (semList.filter (fun e => !e.inGamut)).length
  let semSuccess ← buildSemanticStates F successBase.hex bg.hex mode
  let semWarning ← buildSemanticStates F warningBase.hex bg.hex mode
  let semDanger ← buildSemanticStates F dangerBase.hex bg.hex mode
  let semInfo ← buildSemanticStates F infoBase.hex bg.hex mode
  let secondaryText := secondaryTextOn
  let accentText ← pickTextOn F accent.hex
  let tokens : TokenSet :=
    { mode := mode
      background := bg.hex
      surface := surface.hex
      surface2 := surface2.hex
      textPrimary := textPrimary.hex
      textSecondary := textSecondary.hex
      textTertiary := textTertiary.hex
      primary := primaryHex
      primaryText := primaryText
      secondary := secondary.hex
      secondaryText := secondaryText
      accent := accent.hex
      accentText := accentText
      border := border
      divider := divider
      focusRing := focusRing
      buttonPrimary := buttonPrimary
      buttonSecondary := buttonSecondary
      semantic :=
        { success := semSuccess, warning := semWarning, danger := semDanger, info := semInfo } }
  let Linfo : LinfoT :=
    { background := params.bgL
      surface :=
        jclamp
          (params.bgL + (if mode = "light" then -params.surfaceDeltaL else params.surfaceDeltaL))
          0 1
      surface2 :=
        jclamp
          (params.bgL +
            (if mode = "light" then -params.surface2DeltaL else params.surface2DeltaL))
          0 1
      textPrimary := params.textPrimaryL
      textSecondary := params.textSecondaryL
      textTertiary := params.textTertiaryL
      primary := primaryLch.L
      secondary := params.secondaryL
      accent := params.accentL }
  Except.ok { tokens := tokens, gamutCount := gamutCount, Linfo := Linfo }

/- ============================================================
   Scoring  [lines 500-741]
   ============================================================ -/

structure Check where
  pair : String
  ratio : JsNum
  pass : Bool
  mode : String
deriving DecidableEq, Inhabited, Repr

structure ContrastReport where
  target : String
  normalTextMin : ℚ
  largeTextMin : ℚ
  checks : List Check
  passAll : Bool
  worstRatio : JsNum
deriving DecidableEq, Inhabited, Repr

/-- One `add(pair, fg, bg, min)` entry  [lines 507-511 / 535-539]. -/
def mkCheck (F : RealFns) (cvdMode pair fg bg : String) (mn : ℚ) :
    Except String Check := do
  let f1 ← applyCvd fg cvdMode
  let b1 ← applyCvd bg cvdMode
  let ratio ← contrastRatio F f1 b1
  Except.ok { pair := pair, ratio := ratio, pass := JsNum.ge ratio (JsNum.num mn), mode := cvdMode }

/-- The nine base contrast checks, in source order  [lines 513-523]:
`(pair, fg, bg, min)`. -/
def baseCheckSpecs (tokens : TokenSet) (tm : TargetMins) :
    List (String × String × String × ℚ) :=
  [("textPrimary/background (normal)", tokens.textPrimary, tokens.background, tm.normal),
   ("textPrimary/surface (normal)", tokens.textPrimary, tokens.surface, tm.normal),
   ("textSecondary/background (normal)", tokens.textSecondary, tokens.background, tm.normal),
   ("textSecondary/surface (normal)", tokens.textSecondary, tokens.surface, tm.normal),
   ("textTertiary/surface (normal)", tokens.textTertiary, tokens.surface, tm.large),
   ("primaryText/primary (normal)", tokens.primaryText, tokens.primary, tm.normal),
   ("secondaryText/secondary (normal)", tokens.secondaryText, tokens.secondary, tm.normal),
   ("accentText/accent (normal)", tokens.accentText, tokens.accent, tm.normal),
   ("textPrimary/background (large)", tokens.textPrimary, tokens.background, tm.large)]

def checksPassAll (checks : List Check) : Bool := checks.all (fun c => c.pass)

/-- `checks.reduce((m, c) => Math.min(m, c.ratio), Infinity)`. -/
def checksWorst (checks : List Check) : JsNum :=
  checks.foldl (fun m c => JsNum.jmin m c.ratio) JsNum.inf

/-- `scoreContrastBase`  [lines 503-529]. -/
def scoreContrastBase (F : RealFns) (tokens : TokenSet) (target cvdMode : String) :
    Except String ContrastReport := do
  let tm := targetContrast target
  let checks ← (baseCheckSpecs tokens tm).mapM
    (fun s => mkCheck F cvdMode s.1 s.2.1 s.2.2.1 s.2.2.2)
  Except.ok
    { target := target
      normalTextMin := tm.normal
      largeTextMin := tm.large
      checks := checks
      passAll := checksPassAll checks
      worstRatio := checksWorst checks }

structure StateReport where
  checks : List Check
  passAll : Bool
  worstRatio : JsNum
deriving DecidableEq, Inhabited, Repr

/-- The eight interaction-state checks, in source order  [lines 541-585]. -/
def stateCheckSpecs (tokens : TokenSet) (tm : TargetMins) :
    List (String × String × String × ℚ) :=
  [("btnPrimary/text:hoverBg", tokens.buttonPrimary.text, tokens.buttonPrimary.hoverBg, tm.normal),
   ("btnPrimary/text:pressedBg", tokens.buttonPrimary.text, tokens.buttonPrimary.pressedBg, tm.normal),
   ("btnSecondary/text:hoverBg", tokens.buttonSecondary.text, tokens.buttonSecondary.hoverBg, tm.normal),
   ("btnSecondary/text:pressedBg", tokens.buttonSecondary.text, tokens.buttonSecondary.pressedBg, tm.normal),
   ("semantic.success/subtleText:subtleBg", tokens.semantic.success.subtleText, tokens.semantic.success.subtleBg, tm.normal),
   ("semantic.warning/subtleText:subtleBg", tokens.semantic.warning.subtleText, tokens.semantic.warning.subtleBg, tm.normal),
   ("semantic.danger/subtleText:subtleBg", tokens.semantic.danger.subtleText, tokens.semantic.danger.subtleBg, tm.normal),
   ("semantic.info/subtleText:subtleBg", tokens.semantic.info.subtleText, tokens.semantic.info.subtleBg, tm.normal)]

/-- `scoreContrastStates`  [lines 531-591]. -/
def scoreContrastStates (F : RealFns) (tokens : TokenSet) (target cvdMode : String) :
    Except String StateReport := do
  let tm := targetContrast target
  let checks ← (stateCheckSpecs tokens tm).mapM
    (fun s => mkCheck F cvdMode s.1 s.2.1 s.2.2.1 s.2.2.2)
  Except.ok
    { checks := checks
      passAll := checksPassAll checks
      worstRatio := checksWorst checks }

structure ToneReport where
  mode : String
  L : LinfoT
  ok : Bool
  notes : List String
deriving DecidableEq, Inhabited, Repr

/-- `scoreToneSystem`  [lines 593-657].  Each rule is the source's condition;
`ok` is the conjunction, `notes` collects the messages of the failed rules in
source order. -/
def scoreToneSystem (mode : String) (Linfo : LinfoT) : ToneReport :=
  let bg := Linfo.background
  let sf := Linfo.surface
  let sf2 := Linfo.surface2
  let tp := Linfo.textPrimary
  let ts := Linfo.textSecondary
  let tt := Linfo.textTertiary
  if mode = "light" then
    let ok1 := !JsNum.lt bg 0.85
    let ok2 := JsNum.lt sf bg && JsNum.ge (bg - sf) 0.03 && JsNum.le (bg - sf) 0.14
    let ok3 := JsNum.le sf2 sf && JsNum.ge (sf - sf2) 0.01 && JsNum.le (sf - sf2) 0.08
    let ok4 := !JsNum.gt tp 0.26
    let ok5 := JsNum.gt ts tp && JsNum.le ts 0.45
    let ok6 := JsNum.ge tt ts && JsNum.le tt 0.6
    { mode := mode
      L := Linfo
      ok := ok1 && ok2 && ok3 && ok4 && ok5 && ok6
      notes :=
        (if ok1 then [] else ["라이트: background L 권장 >= 0.85"]) ++
        (if ok2 then [] else ["라이트: surface는 bg보다 살짝 어두워야 함(ΔL 0.03~0.14)"]) ++
        (if ok3 then [] else ["라이트: surface2는 surface보다 조금 더 어두운 층 권장"]) ++
        (if ok4 then [] else ["라이트: textPrimary L 권장 <= 0.26"]) ++
        (if ok5 then [] else ["라이트: textSecondary는 primary보다 밝고 너무 밝지 않게"]) ++
        (if ok6 then [] else ["라이트: textTertiary는 secondary보다 밝고 너무 밝지 않게"]) }
  else
    let ok1 := !JsNum.gt bg 0.18
    let ok2 := JsNum.gt sf bg && JsNum.ge (sf - bg) 0.03 && JsNum.le (sf - bg) 0.14
    let ok3 := JsNum.ge sf2 sf && JsNum.ge (sf2 - sf) 0.01 && JsNum.le (sf2 - sf) 0.08
    let ok4 := !JsNum.lt tp 0.78
    let ok5 := JsNum.lt ts tp && JsNum.ge ts 0.6
    let ok6 := JsNum.le tt ts && JsNum.ge tt 0.45
    { mode := mode
      L := Linfo
      ok := ok1 && ok2 && ok3 && ok4 && ok5 && ok6
      notes :=
        (if ok1 then [] else ["다크: background L 권장 <= 0.18"]) ++
        (if ok2 then [] else ["다크: surface는 bg보다 살짝 밝아야 함(ΔL 0.03~0.14)"]) ++
        (if ok3 then [] else ["다크: surface2는 surface보다 조금 더 밝은 층 권장"]) ++
        (if ok4 then [] else ["다크: textPrimary L 권장 >= 0.78"]) ++
        (if ok5 then [] else ["다크: textSecondary는 primary보다 어둡되 너무 어둡지 않게"]) ++
        (if ok6 then [] else ["다크: textTertiary는 secondary보다 어둡되 너무 어둡지 않게"]) }

structure EmphasisCore where
  dL : JsNum
  dC : JsNum
  dH : JsNum
  score : JsNum
deriving DecidableEq, Inhabited, Repr

structure EmphasisReport where
  primaryVsSurface : EmphasisCore
  ok : Bool
deriving DecidableEq, Inhabited, Repr

/-- `scoreEmphasis`  [lines 659-670]. -/
def scoreEmphasis (F : RealFns) (tokens : TokenSet) : Except String EmphasisReport := do
  let p ← hexToOklch F tokens.primary
  let s ← hexToOklch F tokens.surface
  let dL := JsNum.abs (p.L - s.L)
  let dC := JsNum.abs (p.C - s.C)
  let dH := hueDistance p.H s.H
  let score := jclamp ((dL / 0.2) * 0.35 + (dC / 0.14) * 0.55 + (dH / 90) * 0.1) 0 1
  Except.ok
    { primaryVsSurface := { dL := dL, dC := dC, dH := dH, score := score }
      ok := JsNum.ge dL 0.1 || JsNum.ge dC 0.1 }

/-- `classifyHarmony`  [lines 672-690]. -/
def classifyHarmony (seedHue : Option JsNum) (primaryHue accentHue : JsNum) : String :=
  match seedHue with
  | none =>
      let d := hueDistance primaryHue accentHue
      if JsNum.lt d 15 then "mono"
      else if JsNum.lt d 45 then "analogous"
      else if JsNum.lt (JsNum.abs (d - 180)) 15 then "complementary"
      else if JsNum.lt (JsNum.abs (d - 150)) 20 || JsNum.lt (JsNum.abs (d - 210)) 20 then "split"
      else if JsNum.lt (JsNum.abs (d - 120)) 15 then "triadic"
      else "other"
  | some _ =>
      let d3 := hueDistance primaryHue accentHue
      if JsNum.lt d3 15 then "mono"
      else if JsNum.lt d3 45 then "analogous"
      else if JsNum.lt (JsNum.abs (d3 - 180)) 20 then "complementary"
      else if JsNum.lt (JsNum.abs (d3 - 150)) 25 || JsNum.lt (JsNum.abs (d3 - 210)) 25 then "split"
      else if JsNum.lt (JsNum.abs (d3 - 120)) 20 then "triadic"
      else "other"

/-- The `scoreMap` object  [lines 696-703]; `classifyHarmony` only ever
returns one of the six keys, so the fall-through is unreachable. -/
def harmonyScoreMap (rel : String) : ℚ :=
  if rel = "mono" then 0.9
  else if rel = "analogous" then 1.0
  else if rel = "complementary" then 0.9
  else if rel = "split" then 0.95
  else if rel = "triadic" then 0.85
  else 0.75

structure HueRelations where
  seedHue : Option JsNum
  primaryHue : JsNum
  accentHue : JsNum
  relation : String
deriving DecidableEq, Inhabited, Repr

structure HarmonyReport where
  hueRelations : HueRelations
  score : ℚ
deriving DecidableEq, Inhabited, Repr

/-- `scoreHarmony`  [lines 692-714]. -/
def scoreHarmony (F : RealFns) (seedHue : Option JsNum) (tokens : TokenSet) :
    Except String HarmonyReport := do
  let p ← hexToOklch F tokens.primary
  let a ← hexToOklch F tokens.accent
  let rel := classifyHarmony seedHue p.H a.H
  Except.ok
    { hueRelations :=
        { seedHue := seedHue, primaryHue := p.H, accentHue := a.H, relation := rel }
      score := harmonyScoreMap rel }

structure PairDE where
  pair : String
  dE : JsNum
  mode : String
deriving DecidableEq, Inhabited, Repr

structure SemReport where
  pairs : List PairDE
  minDE : JsNum
  ok : Bool
deriving DecidableEq, Inhabited, Repr

/-- The `i < j` double loop over a list, in source iteration order. -/
def ijPairs {α : Type} : List α → List (α × α)
  | [] => []
  | x :: t => (t.map (fun y => (x, y))) ++ ijPairs t

/-- `scoreSemanticSeparation`  [lines 716-741]. -/
def scoreSemanticSeparation (F : RealFns) (tokens : TokenSet) (cvdMode : String) :
    Except String SemReport := do
  let roles : List (String × String) :=
    [("success", tokens.semantic.success.base),
     ("warning", tokens.semantic.warning.base),
     ("danger", tokens.semantic.danger.base),
     ("info", tokens.semantic.info.base)]
  let pairs ← (ijPairs roles).mapM (fun rp => do
    let c1 ← applyCvd rp.1.2 cvdMode
    let c2 ← applyCvd rp.2.2 cvdMode
    let dE ← deltaEoklab F c1 c2
    Except.ok ({ pair := rp.1.1 ++ "-" ++ rp.2.1, dE := dE, mode := cvdMode } : PairDE))
  let minDE := pairs.foldl (fun m p => JsNum.jmin m p.dE) JsNum.inf
  Except.ok { pairs := pairs, minDE := minDE, ok := JsNum.ge minDE 0.06 }

/- ============================================================
   Aggregation  [lines 743-856]
   ============================================================ -/

structure CvdDistEntry where
  mode : String
  dE : JsNum
deriving DecidableEq, Inhabited, Repr

structure SemDistEntry where
  mode : String
  minPair : String
  minDE : JsNum
deriving DecidableEq, Inhabited, Repr

structure CvdReport where
  modes : List String
  primaryDist : List CvdDistEntry
  semanticDist : List SemDistEntry
deriving DecidableEq, Inhabited, Repr

structure Penalties where
  outOfGamutCount : ℕ
  penalty : JsNum
deriving DecidableEq, Inhabited, Repr

structure Report where
  mode : String
  total : JsNum
  contrast : ContrastReport
  tone : ToneReport
  emphasis : EmphasisReport
  harmony : HarmonyReport
  cvd : CvdReport
  semantic : SemReport
  states : StateReport
  penalties : Penalties
deriving DecidableEq, Inhabited, Repr

/-- `Math.min(...xs)` over a list (Infinity on the empty spread). -/
def listMin (xs : List JsNum) : JsNum := xs.foldl JsNum.jmin JsNum.inf

/-- `clamp((worst - normal) / (normal * 0.6), 0, 1)`  [lines 788-789]. -/
def contrastScoreOf (worst : JsNum) (normal : ℚ) : JsNum :=
  jclamp ((worst - JsNum.num normal) / (JsNum.num (normal * 0.6))) 0 1

/-- The final weighted combination  [lines 811-821], factored out of
`aggregateScore` verbatim. -/
def aggregateTotal (w : Weights)
    (contrastScore stateContrastScore toneScore emphasisScore harmonyScore cvdScore
      semanticScore penaltyGamut hardContrastPenalty hardStatePenalty : JsNum) : JsNum :=
  JsNum.num w.contrast * contrastScore +
    JsNum.num w.stateContrast * stateContrastScore +
    JsNum.num w.toneSystem * toneScore +
    JsNum.num w.emphasis * emphasisScore +
    JsNum.num w.harmony * harmonyScore +
    JsNum.num w.cvdRobust * cvdScore +
    JsNum.num w.semanticSeparation * semanticScore -
    JsNum.num w.gamutPenalty * penaltyGamut -
    4.0 * hardContrastPenalty -
    2.8 * hardStatePenalty

/-- `aggregateScore`  [lines 743-856]. -/
def aggregateScore (F : RealFns) (tokens : TokenSet) (mode target : String)
    (weights : Weights) (gamutCount : ℕ) (Linfo : LinfoT) (cvdModes : List String)
    (seedHue : Option JsNum) : Except String Report := do
  let contrastReports ← cvdModes.mapM (fun m => scoreContrastBase F tokens target m)
  let worstContrast := listMin (contrastReports.map (fun r => r.worstRatio))
  let passAllAllModes := contrastReports.all (fun r => r.passAll)
  let stateReports ← cvdModes.mapM (fun m => scoreContrastStates F tokens target m)
  let worstState := listMin (stateReports.map (fun r => r.worstRatio))
  let passAllStates := stateReports.all (fun r => r.passAll)
  let tone := scoreToneSystem mode Linfo
  let emphasis ← scoreEmphasis F tokens
  let harmony ← scoreHarmony F seedHue tokens
  let primaryDist ← cvdModes.mapM (fun m => do
    let p ← applyCvd tokens.primary m
    let s ← applyCvd tokens.surface m
    let dE ← deltaEoklab F p s
    Except.ok ({ mode := m, dE := dE } : CvdDistEntry))
  let semanticDist ← cvdModes.mapM (fun m => do
    let sem ← scoreSemanticSeparation F tokens m
    let best := sem.pairs.foldl
      (fun acc p => if JsNum.lt p.dE acc.2 then (p.pair, p.dE) else acc) ("", JsNum.inf)
    Except.ok ({ mode := m, minPair := best.1, minDE := best.2 } : SemDistEntry))
  let semanticNone ← scoreSemanticSeparation F tokens "none"
  let nm := (targetContrast target).normal
  let contrastScore := contrastScoreOf worstContrast nm
  let stateContrastScore := contrastScoreOf worstState nm
  let toneScore : JsNum := if tone.ok then 1.0 else 0.65
  let emphasisScore := emphasis.primaryVsSurface.score
  let harmonyScore := jclamp (JsNum.num harmony.score) 0 1
  let primaryDEmin := listMin (primaryDist.map (fun x => x.dE))
  let semDEmin := listMin (semanticDist.map (fun x => x.minDE))
  let cvdPrimaryScore := jclamp ((primaryDEmin - 0.05) / 0.1) 0 1
  let cvdSemanticScore := jclamp ((semDEmin - 0.05) / 0.1) 0 1
  let cvdScore := 0.55 * cvdPrimaryScore + 0.45 * cvdSemanticScore
  let semanticScore :=
    if semanticNone.ok then jclamp ((semanticNone.minDE - 0.06) / 0.08) 0 1 else 0
  let outOfGamutCount := gamutCount
  let penaltyGamut : JsNum :=
    if 0 < outOfGamutCount then jclamp (JsNum.num (((outOfGamutCount : ℤ) : ℚ) / 8)) 0 1 else 0
  let hardContrastPenalty : JsNum := if passAllAllModes then 0 else 0.85
  let hardStatePenalty : JsNum := if passAllStates then 0 else 0.65
  let total := aggregateTotal weights contrastScore stateContrastScore toneScore
    emphasisScore harmonyScore cvdScore semanticScore penaltyGamut hardContrastPenalty
    hardStatePenalty
  let mergedContrast : ContrastReport :=
    { target := target
      normalTextMin := (targetContrast target).normal
      largeTextMin := (targetContrast target).large
      checks := contrastReports.flatMap (fun r => r.checks)
      passAll := passAllAllModes
      worstRatio := worstContrast }
  let mergedStates : StateReport :=
    { checks := stateReports.flatMap (fun r => r.checks)
      passAll := passAllStates
      worstRatio := worstState }
  Except.ok
    { mode := mode
      total := total
      contrast := mergedContrast
      tone := tone
      emphasis := emphasis
      harmony := harmony
      cvd := { modes := cvdModes, primaryDist := primaryDist, semanticDist := semanticDist }
      semantic := semanticNone
      states := mergedStates
      penalties :=
        { outOfGamutCount := outOfGamutCount
          penalty :=
            JsNum.num weights.gamutPenalty * penaltyGamut + 4.0 * hardContrastPenalty +
              2.8 * hardStatePenalty } }

/- ============================================================
   Params init & mutation  [lines 861-1016]
   ============================================================ -/

/-- `initParams`  [lines 861-955] is split into four stages below purely to
keep each compiled definition small; `initParams` is their composition.  The
RNG state is threaded explicitly in the exact draw order of the source; JS
truthiness of `seedHex` (undefined or empty string is falsy) selects the
seed-anchored branches.  `rng.pick` results used in arithmetic read as NaN
when out of range (JS `undefined + number = NaN`).

Stage 1  [lines 862-882]: seed hue, neutrals, background/surface layering and
text tiers. -/
def initParamsStage1 (F : RealFns) (rng0 : ℕ) (mode : String) (seedHex : Option String) :
    Params × ℕ :=
  let d1 := rngFloat rng0 0 360
  let useSeed := seedHex.getD "" ≠ ""
  let seedHue : JsNum :=
    if useSeed then
      match hexToOklch F (seedHex.getD "") with
      | Except.ok l => l.H
      | Except.error _ => JsNum.num d1.1
    else JsNum.num d1.1
  let isLight := mode = "light"
  let dNH :=
    if useSeed then
      let t := rngFloat d1.2 (-10) 10
      (mod360 (seedHue + JsNum.num t.1), t.2)
    else
      let t := rngFloat d1.2 0 360
      (JsNum.num t.1, t.2)
  let d2 := rngFloat dNH.2 0.004 0.028
  let d3 := if isLight then rngFloat d2.2 0.88 0.98 else rngFloat d2.2 0.06 0.16
  let d4 := rngFloat d3.2 0.04 0.11
  let d5 := rngFloat d4.2 0.01 0.06
  let d6 := if isLight then rngFloat d5.2 0.1 0.23 else rngFloat d5.2 0.82 0.95
  let d7 := if isLight then rngFloat d6.2 0.22 0.4 else rngFloat d6.2 0.6 0.8
  let d8 := if isLight then rngFloat d7.2 0.36 0.58 else rngFloat d7.2 0.48 0.68
  ({ (default : Params) with
      seedHue := seedHue
      neutralHue := dNH.1
      neutralC := JsNum.num d2.1
      bgL := JsNum.num d3.1
      surfaceDeltaL := JsNum.num d4.1
      surface2DeltaL := jclamp (JsNum.num d4.1 + JsNum.num d5.1) 0.05 0.18
      textPrimaryL := JsNum.num d6.1
      textSecondaryL := JsNum.num d7.1
      textTertiaryL := JsNum.num d8.1 }, d8.2)

/-- `initParams` stage 2  [lines 884-896]: secondary and accent roles (the
accent strategy draw, with strategy 3 drawing `rng.pick([150, 210])` before
its jitter). -/
def initParamsStage2 (mode : String) (preferVibrant : Bool) (ps : Params × ℕ) :
    Params × ℕ :=
  let p := ps.1
  let isLight := mode = "light"
  let d9 := rngFloat ps.2 (-25) 25
  let d10 := if preferVibrant then rngFloat d9.2 0.05 0.11 else rngFloat d9.2 0.04 0.09
  let d11 := if isLight then rngFloat d10.2 0.7 0.88 else rngFloat d10.2 0.18 0.34
  let dAS := rngInt d11.2 0 3
  let accentStrategy := dAS.1
  let dAH : JsNum × ℕ :=
    if accentStrategy = 0 then
      let t := rngFloat dAS.2 (-12) 12
      (mod360 (p.seedHue + JsNum.num t.1), t.2)
    else if accentStrategy = 1 then
      let t := rngFloat dAS.2 20 45
      (mod360 (p.seedHue + JsNum.num t.1), t.2)
    else if accentStrategy = 2 then
      let t := rngFloat dAS.2 (-12) 12
      (mod360 (p.seedHue + 180 + JsNum.num t.1), t.2)
    else
      let pk := rngPick [(150 : ℚ), 210] dAS.2
      let pkv : JsNum := match pk.1 with
        | some v => JsNum.num v
        | none => JsNum.nan
      let t := rngFloat pk.2 (-12) 12
      (mod360 (p.seedHue + pkv + JsNum.num t.1), t.2)
  let d12 := if preferVibrant then rngFloat dAH.2 0.1 0.2 else rngFloat dAH.2 0.08 0.16
  let d13 := if isLight then rngFloat d12.2 0.45 0.66 else rngFloat d12.2 0.45 0.72
  ({ p with
      secondaryHue := mod360 (p.seedHue + JsNum.num d9.1)
      secondaryC := JsNum.num d10.1
      secondaryL := JsNum.num d11.1
      accentHue := dAH.1
      accentC := JsNum.num d12.1
      accentL := JsNum.num d13.1 }, d13.2)

/-- `initParams` stage 3  [lines 898-915]: the four semantic hues (seed-
conventional or free), semantic chroma and lightnesses. -/
def initParamsStage3 (mode : String) (preferVibrant semanticConventional : Bool)
    (ps : Params × ℕ) : Params × ℕ :=
  let p := ps.1
  let isLight := mode = "light"
  let t14 := if semanticConventional then rngFloat ps.2 (-10) 10 else rngFloat ps.2 0 360
  let d14 : JsNum × ℕ :=
    (if semanticConventional then mod360 (JsNum.num 145 + JsNum.num t14.1)
     else JsNum.num t14.1, t14.2)
  let t15 := if semanticConventional then rngFloat t14.2 (-12) 12 else rngFloat t14.2 0 360
  let d15 : JsNum × ℕ :=
    (if semanticConventional then mod360 (JsNum.num 85 + JsNum.num t15.1)
     else JsNum.num t15.1, t15.2)
  let t16 := if semanticConventional then rngFloat t15.2 (-12) 12 else rngFloat t15.2 0 360
  let d16 : JsNum × ℕ :=
    (if semanticConventional then mod360 (JsNum.num 25 + JsNum.num t16.1)
     else JsNum.num t16.1, t16.2)
  let t17 := if semanticConventional then rngFloat t16.2 (-12) 12 else rngFloat t16.2 0 360
  let d17 : JsNum × ℕ :=
    (if semanticConventional then mod360 (JsNum.num 245 + JsNum.num t17.1)
     else JsNum.num t17.1, t17.2)
  let d18 := if preferVibrant then rngFloat d17.2 0.12 0.2 else rngFloat d17.2 0.1 0.18
  -- successL / dangerL / infoL: the source's light/dark ternaries both read
  -- `rng.float(0.45, 0.62)`, so the branch is collapsed here.
  let d19 := rngFloat d18.2 0.45 0.62
  let d20 := if isLight then rngFloat d19.2 0.55 0.72 else rngFloat d19.2 0.55 0.74
  let d21 := rngFloat d20.2 0.45 0.62
  let d22 := rngFloat d21.2 0.45 0.62
  ({ p with
      successHue := d14.1
      warningHue := d15.1
      dangerHue := d16.1
      infoHue := d17.1
      semanticC := JsNum.num d18.1
      successL := JsNum.num d19.1
      warningL := JsNum.num d20.1
      dangerL := JsNum.num d21.1
      infoL := JsNum.num d22.1 }, d22.2)

/-- `initParams` stage 4  [lines 917-922]: border/divider deltas and the
focus-ring source/boost/lightness. -/
def initParamsStage4 (mode : String) (preferVibrant : Bool) (ps : Params × ℕ) :
    Params × ℕ :=
  let p := ps.1
  let isLight := mode = "light"
  let d23 := rngFloat ps.2 0.02 0.06
  let d24 := rngFloat d23.2 0.03 0.08
  let dFF := rngPick ["primary", "accent"] d24.2
  let d25 := if preferVibrant then rngFloat dFF.2 0.05 0.1 else rngFloat dFF.2 0.04 0.08
  let d26 := if isLight then rngFloat d25.2 0.45 0.65 else rngFloat d25.2 0.55 0.75
  ({ p with
      borderDeltaL := JsNum.num d23.1
      dividerDeltaL := JsNum.num d24.1
      focusFrom := dFF.1
      focusCBoost := JsNum.num d25.1
      focusL := JsNum.num d26.1 }, d26.2)

/-- `initParams`  [lines 861-955]: the composition of the four stages. -/
def initParams (F : RealFns) (rng0 : ℕ) (mode : String) (seedHex : Option String)
    (preferVibrant semanticConventional : Bool) : Params × ℕ :=
  initParamsStage4 mode preferVibrant
    (initParamsStage3 mode preferVibrant semanticConventional
      (initParamsStage2 mode preferVibrant
        (initParamsStage1 F rng0 mode seedHex)))

/-- `mutateParams`  [lines 957-1016]: pick one of ten groups (cases 0-9 of
the switch; the unreachable-looking `default` fires exactly when the selector
draw is 1, i.e. `Math.floor(1 * 10) = 10`) and jitter only that group.
`jitter(x, amt) = x + rng.float(-amt, amt)`. -/
def mutateParams (rng0 : ℕ) (p : Params) : Params × ℕ :=
  let pk := rngInt rng0 0 9
  let s1 := pk.2
  if pk.1 = 0 then
    let j1 := rngFloat s1 (-0.03) 0.03
    let j2 := rngFloat j1.2 (-0.02) 0.02
    let j3 := rngFloat j2.2 (-0.03) 0.03
    ({ p with
        bgL := jclamp (p.bgL + JsNum.num j1.1) 0 1
        surfaceDeltaL := jclamp (p.surfaceDeltaL + JsNum.num j2.1) 0.02 0.16
        surface2DeltaL := jclamp (p.surface2DeltaL + JsNum.num j3.1) 0.03 0.2 }, j3.2)
  else if pk.1 = 1 then
    let j1 := rngFloat s1 (-0.04) 0.04
    let j2 := rngFloat j1.2 (-0.05) 0.05
    let j3 := rngFloat j2.2 (-0.06) 0.06
    ({ p with
        textPrimaryL := jclamp (p.textPrimaryL + JsNum.num j1.1) 0 1
        textSecondaryL := jclamp (p.textSecondaryL + JsNum.num j2.1) 0 1
        textTertiaryL := jclamp (p.textTertiaryL + JsNum.num j3.1) 0 1 }, j3.2)
  else if pk.1 = 2 then
    let j1 := rngFloat s1 (-25) 25
    let j2 := rngFloat j1.2 (-0.03) 0.03
    let j3 := rngFloat j2.2 (-0.06) 0.06
    ({ p with
        secondaryHue := mod360 (p.secondaryHue + JsNum.num j1.1)
        secondaryC := jclamp (p.secondaryC + JsNum.num j2.1) 0.01 0.16
        secondaryL := jclamp (p.secondaryL + JsNum.num j3.1) 0.12 0.92 }, j3.2)
  else if pk.1 = 3 then
    let j1 := rngFloat s1 (-30) 30
    let j2 := rngFloat j1.2 (-0.04) 0.04
    let j3 := rngFloat j2.2 (-0.07) 0.07
    ({ p with
        accentHue := mod360 (p.accentHue + JsNum.num j1.1)
        accentC := jclamp (p.accentC + JsNum.num j2.1) 0.02 0.24
        accentL := jclamp (p.accentL + JsNum.num j3.1) 0.16 0.92 }, j3.2)
  else if pk.1 = 4 then
    let j1 := rngFloat s1 (-15) 15
    let j2 := rngFloat j1.2 (-0.01) 0.01
    ({ p with
        neutralHue := mod360 (p.neutralHue + JsNum.num j1.1)
        neutralC := jclamp (p.neutralC + JsNum.num j2.1) 0.002 0.06 }, j2.2)
  else if pk.1 = 5 then
    let j1 := rngFloat s1 (-0.03) 0.03
    let j2 := rngFloat j1.2 (-0.05) 0.05
    let j3 := rngFloat j2.2 (-0.05) 0.05
    let j4 := rngFloat j3.2 (-0.05) 0.05
    let j5 := rngFloat j4.2 (-0.05) 0.05
    ({ p with
        semanticC := jclamp (p.semanticC + JsNum.num j1.1) 0.06 0.26
        successL := jclamp (p.successL + JsNum.num j2.1) 0.2 0.85
        warningL := jclamp (p.warningL + JsNum.num j3.1) 0.2 0.9
        dangerL := jclamp (p.dangerL + JsNum.num j4.1) 0.2 0.85
        infoL := jclamp (p.infoL + JsNum.num j5.1) 0.2 0.85 }, j5.2)
  else if pk.1 = 6 then
    let j1 := rngFloat s1 (-15) 15
    let j2 := rngFloat j1.2 (-15) 15
    let j3 := rngFloat j2.2 (-15) 15
    let j4 := rngFloat j3.2 (-15) 15
    ({ p with
        successHue := mod360 (p.successHue + JsNum.num j1.1)
        warningHue := mod360 (p.warningHue + JsNum.num j2.1)
        dangerHue := mod360 (p.dangerHue + JsNum.num j3.1)
        infoHue := mod360 (p.infoHue + JsNum.num j4.1) }, j4.2)
  else if pk.1 = 7 then
    let j1 := rngFloat s1 (-0.02) 0.02
    let j2 := rngFloat j1.2 (-0.02) 0.02
    ({ p with
        borderDeltaL := jclamp (p.borderDeltaL + JsNum.num j1.1) 0.01 0.1
        dividerDeltaL := jclamp (p.dividerDeltaL + JsNum.num j2.1) 0.02 0.14 }, j2.2)
  else if pk.1 = 8 then
    let fp := rngPick ["primary", "accent"] s1
    let j1 := rngFloat fp.2 (-0.03) 0.03
    let j2 := rngFloat j1.2 (-0.08) 0.08
    ({ p with
        focusFrom := fp.1
        focusCBoost := jclamp (p.focusCBoost + JsNum.num j1.1) 0.02 0.16
        focusL := jclamp (p.focusL + JsNum.num j2.1) 0.25 0.85 }, j2.2)
  else if pk.1 = 9 then
    let j1 := rngFloat s1 (-15) 15
    ({ p with seedHue := mod360 (p.seedHue + JsNum.num j1.1) }, j1.2)
  else
    (p, s1)

/- ============================================================
   Annealing optimizer  [lines 1018-1096]
   ============================================================ -/

/-- `accept(delta, temperature, rng)`  [lines 1018-1022]: an equal-or-better
candidate is accepted without drawing; a worse one is accepted when
`rng.next() < Math.exp(delta / Math.max(1e-9, temperature))`. -/
def accept (F : RealFns) (delta : JsNum) (temperature : ℚ) (rng : ℕ) : Bool × ℕ :=
  if JsNum.ge delta 0 then (true, rng)
  else
    let prob := jlift F.exp (delta / JsNum.num (max 1e-9 temperature))
    let v := rngNext rng
    (JsNum.lt (JsNum.num v.1) prob, v.2)

/-- The configuration of one `optimizeTheme` run, resolved from `opts` as in
lines 1024-1037. -/
structure AnnealCtx where
  F : RealFns
  mode : String
  primaryHexFixed : String
  target : String
  iterations : ℕ
  temp0 : ℚ
  cooling : ℚ
  preferVibrant : Bool
  semanticConventional : Bool
  cvdModes : List String
  weights : Weights
  seedHex : Option String
  seedHue : Option JsNum

/-- The mutable state of the annealing loop (current candidate, best-so-far,
temperature, iteration counter and RNG state). -/
structure LoopState where
  i : ℕ
  rng : ℕ
  temperature : ℚ
  curParams : Params
  curBuilt : BuildResult
  curReport : Report
  curScore : JsNum
  bestParams : Params
  bestTokens : TokenSet
  bestReport : Report
  bestScore : JsNum
deriving Inhabited

/-- The pre-loop setup of `optimizeTheme`  [lines 1039-1056]: draw the
initial parameters, build and score them, and start with best := current. -/
def annealInit (ctx : AnnealCtx) (rng0 : ℕ) : Except String LoopState := do
  let ip := initParams ctx.F rng0 ctx.mode ctx.seedHex ctx.preferVibrant
    ctx.semanticConventional
  let built ← buildTokens ctx.F ip.1 ctx.mode ctx.primaryHexFixed
  let curReport ← aggregateScore ctx.F built.tokens ctx.mode ctx.target ctx.weights
    built.gamutCount built.Linfo ctx.cvdModes ctx.seedHue
  Except.ok
    { i := 0
      rng := ip.2
      temperature := ctx.temp0
      curParams := ip.1
      curBuilt := built
      curReport := curReport
      curScore := curReport.total
      bestParams := ip.1
      bestTokens := built.tokens
      bestReport := curReport
      bestScore := curReport.total }

/-- One iteration of the annealing loop  [lines 1058-1091]: mutate, build,
score, Metropolis-accept, track the best, cool, and reheat every 900th
iteration with `temperature = Math.min(1.0, temperature * 1.18)`. -/
def annealStep (ctx : AnnealCtx) (s : LoopState) : Except String LoopState := do
  let pr := mutateParams s.rng s.curParams
  let nextBuilt ← buildTokens ctx.F pr.1 ctx.mode ctx.primaryHexFixed
  let nextReport ← aggregateScore ctx.F nextBuilt.tokens ctx.mode ctx.target ctx.weights
    nextBuilt.gamutCount nextBuilt.Linfo ctx.cvdModes ctx.seedHue
  let nextScore := nextReport.total
  let delta := nextScore - s.curScore
  let ar := accept ctx.F delta s.temperature pr.2
  let curParams := if ar.1 then pr.1 else s.curParams
  let curBuilt := if ar.1 then nextBuilt else s.curBuilt
  let curReport := if ar.1 then nextReport else s.curReport
  let curScore := if ar.1 then nextScore else s.curScore
  let improved := JsNum.gt curScore s.bestScore
  let t1 := s.temperature * ctx.cooling
  let t2 := if (s.i + 1) % 900 = 0 then min 1 (t1 * 1.18) else t1
  Except.ok
    { i := s.i + 1
      rng := ar.2
      temperature := t2
      curParams := curParams
      curBuilt := curBuilt
      curReport := curReport
      curScore := curScore
      bestParams := if improved then curParams else s.bestParams
      bestTokens := if improved then curBuilt.tokens else s.bestTokens
      bestReport := if improved then curReport else s.bestReport
      bestScore := if improved then curScore else s.bestScore }

/-- `n` iterations of the annealing loop. -/
def annealIter (ctx : AnnealCtx) : ℕ → LoopState → Except String LoopState
  | 0, s => Except.ok s
  | n + 1, s => do
      let s1 ← annealStep ctx s
      annealIter ctx n s1

/-- The current (accepted) score after each of `n` iterations, in order. -/
def annealScores (ctx : AnnealCtx) : ℕ → LoopState → Except String (List JsNum)
  | 0, _ => Except.ok []
  | n + 1, s => do
      let s1 ← annealStep ctx s
      let rest ← annealScores ctx n s1
      Except.ok (s1.curScore :: rest)

/- ============================================================
   Public entry point  [lines 1101-1142]
   ============================================================ -/

/-- The recognized option object of `recommendTokensDual` / `optimizeTheme`.
`none` is JS `undefined` (so `??`-defaulting applies). -/
structure Options where
  primaryHex : Option String := none
  primaryDarkHex : Option String := none
  seedHex : Option String := none
  contrastTarget : Option String := none
  iterations : Option ℕ := none
  temperature : Option ℚ := none
  cooling : Option ℚ := none
  preferVibrant : Option Bool := none
  semanticConventional : Option Bool := none
  cvdModes : Option (List String) := none
  weights : Option WeightsOverride := none
  randomSeed : Option ℕ := none
deriving Inhabited

/-- `opts.cvdModes && opts.cvdModes.length > 0 ? opts.cvdModes : [...]`
[lines 1032-1035 and 1112-1115]. -/
def resolveCvdModes (o : Option (List String)) : List String :=
  match o with
  | some l => if 0 < l.length then l else ["none", "protan", "deutan", "tritan"]
  | none => ["none", "protan", "deutan", "tritan"]

/-- The `opts`-resolution prologue of `optimizeTheme`  [lines 1024-1037]. -/
def mkAnnealCtx (F : RealFns) (mode primaryHexFixed : String) (opts : Options)
    (seedHue : Option JsNum) : AnnealCtx :=
  { F := F
    mode := mode
    primaryHexFixed := primaryHexFixed
    target := opts.contrastTarget.getD "AA"
    iterations := opts.iterations.getD 3500
    temp0 := opts.temperature.getD 1
    cooling := opts.cooling.getD 0.985
    preferVibrant := opts.preferVibrant.getD true
    semanticConventional := opts.semanticConventional.getD true
    cvdModes := resolveCvdModes opts.cvdModes
    weights := defaultWeights opts.weights
    seedHex := opts.seedHex
    seedHue := seedHue }

structure OptimizeResult where
  tokens : TokenSet
  score : JsNum
  report : Report
deriving Inhabited

/-- `optimizeTheme`  [lines 1024-1096].  The mutated RNG is returned
alongside the result (the source mutates the shared `rng` object in place). -/
def optimizeTheme (F : RealFns) (mode primaryHexFixed : String) (opts : Options)
    (rng0 : ℕ) (seedHue : Option JsNum) : Except String (OptimizeResult × ℕ) := do
  let ctx := mkAnnealCtx F mode primaryHexFixed opts seedHue
  let s0 ← annealInit ctx rng0
  let sF ← annealIter ctx ctx.iterations s0
  Except.ok
    ({ tokens := sF.bestTokens, score := sF.bestScore, report := sF.bestReport }, sF.rng)

/-- `safeSeedHue`  [lines 1135-1142]. -/
def safeSeedHue (F : RealFns) (seedHex : Option String) : Option JsNum :=
  if seedHex.getD "" = "" then none
  else
    match hexToOklch F (seedHex.getD "") with
    | Except.ok l => some l.H
    | Except.error _ => none

structure Meta where
  primaryHex : String
  primaryDarkHex : String
  contrastTarget : String
  cvdModes : List String
  randomSeed : ℕ
deriving Inhabited

structure RecommendOutput where
  light : OptimizeResult
  dark : OptimizeResult
  meta : Meta
deriving Inhabited

/-- `recommendTokensDual(options)`  [lines 1101-1133].  `ambient` models the
one `Math.random()` draw used only when `options.randomSeed` is absent;
`randomSeed >>> 0` seeds the single RNG instance that both mode searches
share. -/
def recommendTokensDual (F : RealFns) (options : Options) (ambient : ℚ) :
    Except String RecommendOutput :=
  if options.primaryHex.getD "" = "" then
    Except.error "primaryHex is required (brand primary fixed)."
  else do
    let ph := options.primaryHex.getD ""
    let randomSeed := match options.randomSeed with
      | some s => s
      | none => (qfloor (ambient * 1000000000)).toNat
    let rng0 := randomSeed % 4294967296
    let primaryHex := normalizeHex ph
    let primaryDarkHex := normalizeHex (options.primaryDarkHex.getD ph)
    let cvdModes := resolveCvdModes options.cvdModes
    let seedHue := safeSeedHue F options.seedHex
    let light ← optimizeTheme F "light" primaryHex options rng0 seedHue
    let dark ← optimizeTheme F "dark" primaryDarkHex options light.2 seedHue
    Except.ok
      { light := light.1
        dark := dark.1
        meta :=
          { primaryHex := primaryHex
            primaryDarkHex := primaryDarkHex
            contrastTarget := options.contrastTarget.getD "AA"
            cvdModes := cvdModes
            randomSeed := randomSeed } }

/-- Modelled from the spec's independence claim (section 5): the hypothetical
variant of `recommendTokensDual` in which the two searches run in the other
order (dark first, then light), everything else unchanged.  The claim asserts
the dark result would be unchanged under this reordering. -/
def recommendTokensDualSwapped (F : RealFns) (options : Options) (ambient : ℚ) :
    Except String RecommendOutput :=
  if options.primaryHex.getD "" = "" then
    Except.error "primaryHex is required (brand primary fixed)."
  else do
    let ph := options.primaryHex.getD ""
    let randomSeed := match options.randomSeed with
      | some s => s
      | none => (qfloor (ambient * 1000000000)).toNat
    let rng0 := randomSeed % 4294967296
    let primaryHex := normalizeHex ph
    let primaryDarkHex := normalizeHex (options.primaryDarkHex.getD ph)
    let cvdModes := resolveCvdModes options.cvdModes
    let seedHue := safeSeedHue F options.seedHex
    let dark ← optimizeTheme F "dark" primaryDarkHex options rng0 seedHue
    let light ← optimizeTheme F "light" primaryHex options dark.2 seedHue
    Except.ok
      { light := light.1
        dark := dark.1
        meta :=
          { primaryHex := primaryHex
            primaryDarkHex := primaryDarkHex
            contrastTarget := options.contrastTarget.getD "AA"
            cvdModes := cvdModes
            randomSeed := randomSeed } }

/- ============================================================
   Basic lemmas about the embedding
   ============================================================ -/

theorem qfloor_eq (q : ℚ) : qfloor q = Int.floor q := by
  rw [qfloor, Int.fdiv_eq_ediv _ (Int.ofNat_nonneg q.den), Rat.floor_def]

namespace JsNum

theorem add_num (a b : ℚ) : num a + num b = num (a + b) := rfl

theorem sub_num (a b : ℚ) : num a - num b = num (a - b) := by
  show add (num a) (neg (num b)) = num (a - b)
  simp only [neg, add, sub_eq_add_neg]

theorem mul_num (a b : ℚ) : num a * num b = num (a * b) := rfl

theorem div_num (a b : ℚ) (hb : b ≠ 0) : num a / num b = num (a / b) := by
  show div (num a) (num b) = num (a / b)
  simp only [div, if_neg hb]

theorem add_nan (a : JsNum) : a + nan = nan := by cases a <;> rfl

theorem nan_add (a : JsNum) : nan + a = nan := by cases a <;> rfl

theorem mul_nan (a : JsNum) : a * nan = nan := by cases a <;> rfl

theorem nan_mul (a : JsNum) : nan * a = nan := by cases a <;> rfl

theorem sub_nan (a : JsNum) : a - nan = nan := by cases a <;> rfl

theorem nan_sub (a : JsNum) : nan - a = nan := by cases a <;> rfl

theorem div_nan (a : JsNum) : a / nan = nan := by cases a <;> rfl

theorem nan_div (a : JsNum) : nan / a = nan := by cases a <;> rfl

theorem le_nan (a : JsNum) : le a nan = false := by cases a <;> rfl

theorem nan_le (a : JsNum) : le nan a = false := by cases a <;> rfl

theorem lt_nan (a : JsNum) : lt a nan = false := by cases a <;> rfl

theorem nan_lt (a : JsNum) : lt nan a = false := by cases a <;> rfl

theorem jmin_nan (a : JsNum) : jmin a nan = nan := by cases a <;> rfl

theorem nan_jmin (a : JsNum) : jmin nan a = nan := by cases a <;> rfl

theorem jmax_nan (a : JsNum) : jmax a nan = nan := by cases a <;> rfl

theorem nan_jmax (a : JsNum) : jmax nan a = nan := by cases a <;> rfl

theorem jmin_num (a b : ℚ) : jmin (num a) (num b) = num (min a b) := by
  simp only [jmin, lt]
  split <;> rename_i h <;> simp at h
  · rw [min_eq_right (le_of_lt h)]
  · rw [min_eq_left h]

theorem jmax_num (a b : ℚ) : jmax (num a) (num b) = num (max a b) := by
  simp only [jmax, lt]
  split <;> rename_i h <;> simp at h
  · rw [max_eq_right (le_of_lt h)]
  · rw [max_eq_left h]

theorem isNum_iff {a : JsNum} : a.isNum = true ↔ ∃ q, a = num q := by
  cases a <;> simp [isNum]

/-- Sum is an ordinary number only if both operands are. -/
theorem ne_nan_of_add {a b : JsNum} (h : a + b ≠ nan) : a ≠ nan ∧ b ≠ nan := by
  constructor
  · rintro rfl; exact h (nan_add b)
  · rintro rfl; exact h (add_nan a)

theorem ne_nan_of_sub {a b : JsNum} (h : a - b ≠ nan) : a ≠ nan ∧ b ≠ nan := by
  constructor
  · rintro rfl; exact h (nan_sub b)
  · rintro rfl; exact h (sub_nan a)

theorem ne_nan_of_mul {a b : JsNum} (h : a * b ≠ nan) : a ≠ nan ∧ b ≠ nan := by
  constructor
  · rintro rfl; exact h (nan_mul b)
  · rintro rfl; exact h (mul_nan a)

theorem isNum_add {a b : JsNum} (ha : a.isNum = true) (hb : b.isNum = true) :
    (a + b).isNum = true := by
  obtain ⟨x, rfl⟩ := isNum_iff.mp ha
  obtain ⟨y, rfl⟩ := isNum_iff.mp hb
  rw [add_num]; rfl

theorem isNum_sub {a b : JsNum} (ha : a.isNum = true) (hb : b.isNum = true) :
    (a - b).isNum = true := by
  obtain ⟨x, rfl⟩ := isNum_iff.mp ha
  obtain ⟨y, rfl⟩ := isNum_iff.mp hb
  rw [sub_num]; rfl

theorem isNum_mul {a b : JsNum} (ha : a.isNum = true) (hb : b.isNum = true) :
    (a * b).isNum = true := by
  obtain ⟨x, rfl⟩ := isNum_iff.mp ha
  obtain ⟨y, rfl⟩ := isNum_iff.mp hb
  rw [mul_num]; rfl

theorem isNum_jmin {a b : JsNum} (ha : a.isNum = true) (hb : b.isNum = true) :
    (jmin a b).isNum = true := by
  obtain ⟨x, rfl⟩ := isNum_iff.mp ha
  obtain ⟨y, rfl⟩ := isNum_iff.mp hb
  rw [jmin_num]; rfl

theorem isNum_jmax {a b : JsNum} (ha : a.isNum = true) (hb : b.isNum = true) :
    (jmax a b).isNum = true := by
  obtain ⟨x, rfl⟩ := isNum_iff.mp ha
  obtain ⟨y, rfl⟩ := isNum_iff.mp hb
  rw [jmax_num]; rfl

end JsNum

theorem jlift_num (f : ℚ → ℚ) (q : ℚ) : jlift f (JsNum.num q) = JsNum.num (f q) := rfl

theorem jlift_nan (f : ℚ → ℚ) : jlift f JsNum.nan = JsNum.nan := rfl

theorem isNum_jlift (f : ℚ → ℚ) {a : JsNum} (ha : a.isNum = true) :
    (jlift f a).isNum = true := by
  obtain ⟨x, rfl⟩ := JsNum.isNum_iff.mp ha
  rfl

theorem jclamp_num (x lo hi : ℚ) :
    jclamp (JsNum.num x) (JsNum.num lo) (JsNum.num hi) = JsNum.num (min hi (max lo x)) := by
  rw [jclamp, JsNum.jmax_num, JsNum.jmin_num]

theorem jclamp_nan (lo hi : JsNum) : jclamp JsNum.nan lo hi = JsNum.nan := by
  rw [jclamp, JsNum.jmax_nan, JsNum.jmin_nan]

theorem isNum_jclamp {x : JsNum} (lo hi : ℚ) (hx : x.isNum = true) :
    (jclamp x (JsNum.num lo) (JsNum.num hi)).isNum = true := by
  obtain ⟨q, rfl⟩ := JsNum.isNum_iff.mp hx
  rw [jclamp_num]; rfl

/-- A clamped ordinary number lies in the clamp interval. -/
theorem jclamp_mem {x : JsNum} {lo hi r : ℚ} (hlohi : lo ≤ hi)
    (h : jclamp x (JsNum.num lo) (JsNum.num hi) = JsNum.num r) : lo ≤ r ∧ r ≤ hi := by
  cases x with
  | nan => rw [jclamp_nan] at h; cases h
  | inf =>
      have e1 : JsNum.jmax (JsNum.num lo) JsNum.inf = JsNum.inf := rfl
      have e2 : JsNum.jmin (JsNum.num hi) JsNum.inf = JsNum.num hi := rfl
      have e3 : jclamp JsNum.inf (JsNum.num lo) (JsNum.num hi) = JsNum.num hi := by
        rw [jclamp, e1, e2]
      rw [e3] at h
      cases h
      exact ⟨hlohi, le_refl _⟩
  | ninf =>
      have e1 : JsNum.jmax (JsNum.num lo) JsNum.ninf = JsNum.num lo := rfl
      have e2 : jclamp JsNum.ninf (JsNum.num lo) (JsNum.num hi) = JsNum.num (min hi lo) := by
        rw [jclamp, e1, JsNum.jmin_num]
      rw [e2, min_eq_right hlohi] at h
      cases h
      exact ⟨le_refl _, hlohi⟩
  | num q =>
      rw [jclamp_num] at h
      cases h
      constructor
      · exact le_min hlohi (le_max_left _ _)
      · exact min_le_left _ _

theorem mod360_nan : mod360 JsNum.nan = JsNum.nan := rfl

theorem mod360_not_num {x : JsNum} (h : x.isNum = false) : mod360 x = JsNum.nan := by
  cases x <;> first | rfl | simp [JsNum.isNum] at h

/-- `mod360` of an ordinary number is an ordinary number in `[0, 360)`. -/
theorem mod360_num_mem (q : ℚ) :
    ∃ r, mod360 (JsNum.num q) = JsNum.num r ∧ 0 ≤ r ∧ r < 360 := by
  rw [mod360]
  set t := qtrunc (q / 360) with ht
  have hlow : -360 < q - 360 * t := by
    rw [ht, qtrunc]
    split
    · rename_i h0
      rw [qfloor_eq]
      have := Int.floor_le (q / 360)
      nlinarith
    · rename_i h0
      push_neg at h0
      rw [qfloor_eq]
      have h1 := Int.lt_floor_add_one (-(q / 360))
      push_cast
      nlinarith
  have hup : q - 360 * t < 360 := by
    rw [ht, qtrunc]
    split
    · rename_i h0
      rw [qfloor_eq]
      have := Int.lt_floor_add_one (q / 360)
      nlinarith
    · rename_i h0
      push_neg at h0
      rw [qfloor_eq]
      have h2 := Int.floor_le (-(q / 360))
      push_cast
      nlinarith
  rcases lt_or_ge (q - 360 * t) 0 with hneg | hpos
  · refine ⟨q - 360 * t + 360, ?_, by linarith, by linarith⟩
    rw [if_pos hneg]
  · refine ⟨q - 360 * t, ?_, hpos, hup⟩
    rw [if_neg (not_lt.mpr hpos)]

theorem isNum_mod360 {x : JsNum} (hx : x.isNum = true) : (mod360 x).isNum = true := by
  obtain ⟨q, rfl⟩ := JsNum.isNum_iff.mp hx
  obtain ⟨r, hr, -⟩ := mod360_num_mem q
  rw [hr]; rfl

/-- Inversion for `Except` bind. -/
theorem exbind_ok {α β : Type} {e : Except String α} {k : α → Except String β} {r : β} :
    (e >>= k) = Except.ok r ↔ ∃ a, e = Except.ok a ∧ k a = Except.ok r := by
  cases e with
  | error msg => simp [Bind.bind, Except.bind]
  | ok a => simp [Bind.bind, Except.bind]

theorem xorshift_lt (s : ℕ) : xorshift s < 4294967296 :=
  Nat.mod_lt _ (by norm_num)

theorem rngNext_nonneg (s : ℕ) : 0 ≤ (rngNext s).1 := by
  rw [rngNext]
  positivity

theorem rngNext_le_one (s : ℕ) : (rngNext s).1 ≤ 1 := by
  show ((xorshift s : ℤ) : ℚ) / 4294967295 ≤ 1
  rw [div_le_one (by norm_num)]
  have h := xorshift_lt s
  exact_mod_cast (by omega : xorshift s ≤ 4294967295)

theorem rngNext_lt_one {s : ℕ} (h : xorshift s ≠ 4294967295) : (rngNext s).1 < 1 := by
  show ((xorshift s : ℤ) : ℚ) / 4294967295 < 1
  rw [div_lt_one (by norm_num)]
  have hlt := xorshift_lt s
  exact_mod_cast (by omega : xorshift s < 4294967295)

theorem rngFloat_mem (s : ℕ) {lo hi : ℚ} (h : lo ≤ hi) :
    lo ≤ (rngFloat s lo hi).1 ∧ (rngFloat s lo hi).1 ≤ hi := by
  have h0 := rngNext_nonneg s
  have h1 := rngNext_le_one s
  constructor
  · show lo ≤ (rngNext s).1 * (hi - lo) + lo
    nlinarith
  · show (rngNext s).1 * (hi - lo) + lo ≤ hi
    nlinarith

/-- `rng.float(-amt, amt)` is a jitter of magnitude at most `amt`. -/
theorem rngFloat_abs_le (s : ℕ) {amt : ℚ} (h : 0 ≤ amt) :
    |(rngFloat s (-amt) amt).1| ≤ amt := by
  have := rngFloat_mem s (by linarith : -amt ≤ amt)
  rw [abs_le]
  exact this

theorem rngPick_mem {α : Type} (arr : List α) (s : ℕ) (hne : arr ≠ [])
    (hs : xorshift s ≠ 4294967295) : ∃ x ∈ arr, (rngPick arr s).1 = some x := by
  have hlen : 0 < arr.length := List.length_pos.mpr hne
  have h0 := rngNext_nonneg s
  have h1 := rngNext_lt_one hs
  have hpick : (rngPick arr s).1 =
      if (rngInt s 0 ((arr.length : ℤ) - 1)).1 < 0 then none
      else arr.get? (rngInt s 0 ((arr.length : ℤ) - 1)).1.toNat := rfl
  have hint : (rngInt s 0 ((arr.length : ℤ) - 1)).1 =
      qfloor ((rngNext s).1 * (((arr.length : ℤ) - 1 : ℤ) - ((0 : ℤ) : ℚ) + 1)) + 0 := rfl
  have harg : ((((arr.length : ℤ) - 1 : ℤ) : ℚ) - ((0 : ℤ) : ℚ) + 1) = ((arr.length : ℤ) : ℚ) := by
    push_cast
    ring
  rw [harg] at hint
  set v := (rngNext s).1 with hv
  have hlenq : (0 : ℚ) < ((arr.length : ℤ) : ℚ) := by exact_mod_cast hlen
  have hfl0 : 0 ≤ qfloor (v * ((arr.length : ℤ) : ℚ)) := by
    rw [qfloor_eq]
    exact Int.floor_nonneg.mpr (mul_nonneg h0 hlenq.le)
  have hflt : qfloor (v * ((arr.length : ℤ) : ℚ)) < (arr.length : ℤ) := by
    rw [qfloor_eq]
    refine Int.floor_lt.mpr ?_
    nlinarith
  rw [hint] at hpick
  rw [if_neg (by omega)] at hpick
  have hidx : (qfloor (v * ((arr.length : ℤ) : ℚ)) + 0).toNat < arr.length := by omega
  refine ⟨arr.get ⟨(qfloor (v * ((arr.length : ℤ) : ℚ)) + 0).toNat, hidx⟩,
    List.get_mem arr _ hidx, ?_⟩
  rw [hpick]
  exact List.get?_eq_get hidx

/- ============================================================
   Claim C10
   ============================================================ -/

/-- C10 (amended): for every state, `RNG.next()` returns a value in the
closed interval [0, 1]; and `RNG.pick(arr)` returns an element of a nonempty
`arr` provided the draw is strictly below 1, i.e. the updated xorshift state
is not 2^32 - 1.  (As claimed, `next` can return exactly 1, in which case
`pick` indexes one past the end and reads JS `undefined`; see the
counterexample.) -/
theorem rng_next_unit_pick_inbounds (s : ℕ) :
    (0 ≤ (rngNext s).1 ∧ (rngNext s).1 ≤ 1) ∧
    (xorshift s ≠ 4294967295 →
      ∀ (arr : List ℚ), arr ≠ [] → ∃ x ∈ arr, (rngPick arr s).1 = some x) :=
  ⟨⟨rngNext_nonneg s, rngNext_le_one s⟩, fun hs arr hne => rngPick_mem arr s hne hs⟩

/-- C10 witness: a concrete in-bounds pick through the amended theorem. -/
theorem rng_next_unit_pick_inbounds_witness :
    xorshift 1 ≠ 4294967295 ∧ ([(3 : ℚ)] ≠ []) ∧
      ∃ x ∈ [(3 : ℚ)], (rngPick [(3 : ℚ)] 1).1 = some x :=
  ⟨by decide, by decide,
    (rng_next_unit_pick_inbounds 1).2 (by decide) [(3 : ℚ)] (by decide)⟩

/-- C10 counterexample: seeding with 1584200935 makes the first `next()`
draw exactly 1 (the updated state is 0xffffffff), so `pick` on the nonempty
array `[0]` computes index 1 and reads JS `undefined` — it does not return an
element of the array, refuting the in-bounds half of the claim. -/
theorem rng_pick_out_of_bounds_counterexample :
    (rngNext 1584200935).1 = 1 ∧ (rngPick [(0 : ℚ)] 1584200935).1 = none := by
  constructor
  · decide
  · decide

/- ============================================================
   Claim C3
   ============================================================ -/

/-- The spec's validity criterion for C3: exactly 6 hex digits (after the
trim-and-strip already applied by `stripHexInput`). -/
def isSixHexDigits (cs : List Char) : Bool :=
  (cs.length = 6 : Bool) && cs.all isHexDigitChar

/-- C3 (amended): `hexToOklch` (through `hexToRgb`) throws exactly when the
trimmed, `#`-stripped content's *length* differs from 6; a length-6 string
with non-hex characters is accepted silently and its NaN channels propagate
to NaN coordinates (see the counterexample).  In particular `"#12"` (length
2) does throw. -/
theorem hexToOklch_error_iff_length (F : RealFns) (s : String) :
    (∃ e, hexToOklch F s = Except.error e) ↔ (stripHexInput s).length ≠ 6 := by
  rw [hexToOklch, hexToRgb]
  by_cases h : (stripHexInput s).length = 6
  · rw [if_neg (by simp [h])]
    simp only [h]
    constructor
    · rintro ⟨e, he⟩
      cases he
    · intro hne
      exact absurd rfl hne
  · rw [if_pos h]
    simp only [h]
    constructor
    · intro
      exact h
    · intro
      exact ⟨"Invalid hex: " ++ s, rfl⟩

/-- C3 witness: `"#12"` raises InvalidColorFormat, via the amended theorem. -/
theorem hexToOklch_error_iff_length_witness :
    (stripHexInput "#12").length ≠ 6 ∧ ∃ e, hexToOklch idFns "#12" = Except.error e :=
  ⟨by decide, (hexToOklch_error_iff_length idFns "#12").mpr (by decide)⟩

/-- C3 counterexample: `"GGGGGG"` is not 6 hex digits, yet `hexToOklch` does
not raise — it silently returns NaN coordinates, refuting the claim that
every non-6-hex-digit input raises InvalidColorFormat. -/
theorem hexToOklch_nan_counterexample :
    isSixHexDigits (stripHexInput "GGGGGG") = false ∧
      hexToOklch idFns "GGGGGG" =
        Except.ok { L := JsNum.nan, C := JsNum.nan, H := JsNum.nan } := by
  constructor
  · decide
  · decide

/- ============================================================
   Claim C1
   ============================================================ -/

/-- C1: with an explicit `randomSeed` in the configuration, the result of
`recommendTokensDual` is independent of the ambient `Math.random()` draw —
the one source of nondeterminism in the source.  Since the embedding is
otherwise a pure function of the configuration, two invocations with
identical configuration and seed produce identical outputs (light and dark
token sets, scores and reports alike). -/
theorem recommendTokensDual_deterministic (F : RealFns) (opts : Options) (seed : ℕ)
    (amb1 amb2 : ℚ) (h : opts.randomSeed = some seed) :
    recommendTokensDual F opts amb1 = recommendTokensDual F opts amb2 := by
  unfold recommendTokensDual
  rw [h]

/-- C1 witness: a concrete configuration with `randomSeed = 1`. -/
theorem recommendTokensDual_deterministic_witness :
    ({ primaryHex := some "#5B5FF5", iterations := some 0, cvdModes := some ["none"],
        randomSeed := some 1 } : Options).randomSeed = some 1 ∧
      recommendTokensDual idFns
          { primaryHex := some "#5B5FF5", iterations := some 0, cvdModes := some ["none"],
            randomSeed := some 1 } 0 =
        recommendTokensDual idFns
          { primaryHex := some "#5B5FF5", iterations := some 0, cvdModes := some ["none"],
            randomSeed := some 1 } (1 / 2) :=
  ⟨rfl, recommendTokensDual_deterministic idFns _ 1 0 (1 / 2) rfl⟩

/- ============================================================
   Claim C9
   ============================================================ -/

/-- C9 (amended): in every iteration of the annealing loop the temperature
is multiplied by the cooling factor, and on every 900th iteration the result
is additionally multiplied by 1.18 and capped at the *constant* 1.0 — the
default initial temperature — rather than at the temperature the run
actually started with (`Math.min(1.0, temperature * 1.18)`, line 1090). -/
theorem annealStep_temperature (ctx : AnnealCtx) (s s1 : LoopState)
    (h : annealStep ctx s = Except.ok s1) :
    s1.temperature =
      if (s.i + 1) % 900 = 0 then min 1 (s.temperature * ctx.cooling * 1.18)
      else s.temperature * ctx.cooling := by
  rw [annealStep] at h
  rw [exbind_ok] at h
  obtain ⟨nb, hnb, h⟩ := h
  rw [exbind_ok] at h
  obtain ⟨nr, hnr, h⟩ := h
  cases h
  rfl

/-- The concrete annealing context for the C9 witness and counterexample:
`opts.temperature = 2` (so the run starts at temperature 2) and
`opts.cooling = 1` (so the temperature is still 2 when the 900th iteration
is reached). -/
def c9ctx : AnnealCtx :=
  mkAnnealCtx idFns "light" "#5B5FF5"
    { primaryHex := some "#5B5FF5", iterations := some 1000, temperature := some 2,
      cooling := some 1, cvdModes := some ["none"], randomSeed := some 1 }
    none

/-- The loop state reached just before the 900th iteration of such a run:
`i = 899` and the temperature still equals the initial temperature 2
(cooling is 1, and no reheat has fired in iterations 1..899). -/
def c9state : LoopState :=
  { i := 899
    rng := 1
    temperature := 2
    curParams := (initParams idFns 1 "light" none true true).1
    curBuilt := default
    curReport := default
    curScore := 0
    bestParams := (initParams idFns 1 "light" none true true).1
    bestTokens := default
    bestReport := default
    bestScore := 0 }

def c9next : LoopState := ((annealStep c9ctx c9state).toOption).getD default

/-- C9 witness: the amended recurrence evaluated at the concrete reheat
state. -/
theorem annealStep_temperature_witness :
    annealStep c9ctx c9state = Except.ok c9next ∧
      c9next.temperature =
        (if (c9state.i + 1) % 900 = 0
          then min 1 (c9state.temperature * c9ctx.cooling * 1.18)
          else c9state.temperature * c9ctx.cooling) :=
  ⟨rfl, annealStep_temperature c9ctx c9state c9next rfl⟩

/-- C9 counterexample: on the 900th iteration of a run that started at
temperature 2 (with cooling 1, so the temperature is still 2), the source
reheats to `Math.min(1.0, 2 * 1 * 1.18) = 1.0`, while the claim ("a bounded
multiplicative bump whose result is capped at the initial temperature")
predicts `min 2 (2 * 1 * 1.18) = 2`. -/
theorem annealStep_temperature_counterexample :
    (annealStep c9ctx c9state).map (fun s1 => s1.temperature) = Except.ok 1 ∧
      ¬((1 : ℚ) = min c9ctx.temp0 (c9state.temperature * c9ctx.cooling * 1.18)) := by
  constructor
  · decide
  · decide

/- ============================================================
   Claim C5
   ============================================================ -/

/-- The C5 configuration: explicit seed, zero iterations, one CVD mode. -/
def c5opts : Options :=
  { primaryHex := some "#5B5FF5", iterations := some 0, cvdModes := some ["none"],
    randomSeed := some 1 }

/-- C5 (amended): the two mode searches share exactly one piece of mutable
state — the RNG.  The dark-mode result is produced by `optimizeTheme`
applied at the RNG state *left behind by the light-mode search*, so it is a
pure function of (configuration, that state), not of the configuration
alone. -/
theorem recommend_dark_uses_light_rng (F : RealFns) (opts : Options) (amb : ℚ)
    (out : RecommendOutput) (h : recommendTokensDual F opts amb = Except.ok out) :
    ∃ lightPair darkPair,
      optimizeTheme F "light" (normalizeHex (opts.primaryHex.getD "")) opts
          ((match opts.randomSeed with
            | some s => s
            | none => (qfloor (amb * 1000000000)).toNat) % 4294967296)
          (safeSeedHue F opts.seedHex) = Except.ok lightPair ∧
        optimizeTheme F "dark"
            (normalizeHex (opts.primaryDarkHex.getD (opts.primaryHex.getD ""))) opts
            lightPair.2 (safeSeedHue F opts.seedHex) = Except.ok darkPair ∧
        out.light = lightPair.1 ∧ out.dark = darkPair.1 := by
  rw [recommendTokensDual] at h
  split at h
  · cases h
  · rw [exbind_ok] at h
    obtain ⟨lp, hlp, h⟩ := h
    rw [exbind_ok] at h
    obtain ⟨dp, hdp, h⟩ := h
    cases h
    exact ⟨lp, dp, hlp, hdp, rfl, rfl⟩

def c5out : RecommendOutput := ((recommendTokensDual idFns c5opts 0).toOption).getD default

/-- C5 witness for the amended theorem, at the concrete configuration. -/
theorem recommend_dark_uses_light_rng_witness :
    recommendTokensDual idFns c5opts 0 = Except.ok c5out ∧
      ∃ lightPair darkPair,
        optimizeTheme idFns "light" (normalizeHex (c5opts.primaryHex.getD "")) c5opts
            ((match c5opts.randomSeed with
              | some s => s
              | none => (qfloor ((0 : ℚ) * 1000000000)).toNat) % 4294967296)
            (safeSeedHue idFns c5opts.seedHex) = Except.ok lightPair ∧
          optimizeTheme idFns "dark"
              (normalizeHex (c5opts.primaryDarkHex.getD (c5opts.primaryHex.getD ""))) c5opts
              lightPair.2 (safeSeedHue idFns c5opts.seedHex) = Except.ok darkPair ∧
          c5out.light = lightPair.1 ∧ c5out.dark = darkPair.1 :=
  ⟨rfl, recommend_dark_uses_light_rng idFns c5opts 0 c5out rfl⟩

/-- C5 counterexample: running the dark search before the light search (the
reordering the claim asserts to be innocuous) changes the dark-mode result.
The projection compares `dark.report.tone.L.background`, which is the
`Linfo.background = params.bgL` of the dark run's best candidate, copied
verbatim into the report by `scoreToneSystem`; the two orders give the dark
search different RNG states, hence different parameters and a different
report.  (With `iterations = 0` the searches still consume the ~30
`initParams` draws from the one shared RNG.) -/
theorem recommend_dark_not_order_independent_counterexample :
    (recommendTokensDual idFns c5opts 0).map
        (fun r => r.dark.report.tone.L.background) ≠
      (recommendTokensDualSwapped idFns c5opts 0).map
        (fun r => r.dark.report.tone.L.background) := by
  decide

/- ============================================================
   Claim C7
   ============================================================ -/

/-- The per-group mutation contract of claim C7: group `k` jitters exactly
its own fields — each new value is `clamp(old + δ, lo, hi)` for a jitter
`|δ| ≤ amt` (hue fields are wrapped `mod360(old + δ)` instead, and the
focus-ring source is redrawn from `["primary", "accent"]`, reading as JS
`undefined` on the measure-zero out-of-range draw) — and copies every other
field unchanged (expressed by the record-update equality). -/
def mutGroupSpec (k : ℕ) (p q : Params) : Prop :=
  match k with
  | 0 => ∃ d1 d2 d3 : ℚ, |d1| ≤ 0.03 ∧ |d2| ≤ 0.02 ∧ |d3| ≤ 0.03 ∧
      q = { p with
        bgL := jclamp (p.bgL + JsNum.num d1) 0 1
        surfaceDeltaL := jclamp (p.surfaceDeltaL + JsNum.num d2) 0.02 0.16
        surface2DeltaL := jclamp (p.surface2DeltaL + JsNum.num d3) 0.03 0.2 }
  | 1 => ∃ d1 d2 d3 : ℚ, |d1| ≤ 0.04 ∧ |d2| ≤ 0.05 ∧ |d3| ≤ 0.06 ∧
      q = { p with
        textPrimaryL := jclamp (p.textPrimaryL + JsNum.num d1) 0 1
        textSecondaryL := jclamp (p.textSecondaryL + JsNum.num d2) 0 1
        textTertiaryL := jclamp (p.textTertiaryL + JsNum.num d3) 0 1 }
  | 2 => ∃ d1 d2 d3 : ℚ, |d1| ≤ 25 ∧ |d2| ≤ 0.03 ∧ |d3| ≤ 0.06 ∧
      q = { p with
        secondaryHue := mod360 (p.secondaryHue + JsNum.num d1)
        secondaryC := jclamp (p.secondaryC + JsNum.num d2) 0.01 0.16
        secondaryL := jclamp (p.secondaryL + JsNum.num d3) 0.12 0.92 }
  | 3 => ∃ d1 d2 d3 : ℚ, |d1| ≤ 30 ∧ |d2| ≤ 0.04 ∧ |d3| ≤ 0.07 ∧
      q = { p with
        accentHue := mod360 (p.accentHue + JsNum.num d1)
        accentC := jclamp (p.accentC + JsNum.num d2) 0.02 0.24
        accentL := jclamp (p.accentL + JsNum.num d3) 0.16 0.92 }
  | 4 => ∃ d1 d2 : ℚ, |d1| ≤ 15 ∧ |d2| ≤ 0.01 ∧
      q = { p with
        neutralHue := mod360 (p.neutralHue + JsNum.num d1)
        neutralC := jclamp (p.neutralC + JsNum.num d2) 0.002 0.06 }
  | 5 => ∃ d1 d2 d3 d4 d5 : ℚ, |d1| ≤ 0.03 ∧ |d2| ≤ 0.05 ∧ |d3| ≤ 0.05 ∧
      |d4| ≤ 0.05 ∧ |d5| ≤ 0.05 ∧
      q = { p with
        semanticC := jclamp (p.semanticC + JsNum.num d1) 0.06 0.26
        successL := jclamp (p.successL + JsNum.num d2) 0.2 0.85
        warningL := jclamp (p.warningL + JsNum.num d3) 0.2 0.9
        dangerL := jclamp (p.dangerL + JsNum.num d4) 0.2 0.85
        infoL := jclamp (p.infoL + JsNum.num d5) 0.2 0.85 }
  | 6 => ∃ d1 d2 d3 d4 : ℚ, |d1| ≤ 15 ∧ |d2| ≤ 15 ∧ |d3| ≤ 15 ∧ |d4| ≤ 15 ∧
      q = { p with
        successHue := mod360 (p.successHue + JsNum.num d1)
        warningHue := mod360 (p.warningHue + JsNum.num d2)
        dangerHue := mod360 (p.dangerHue + JsNum.num d3)
        infoHue := mod360 (p.infoHue + JsNum.num d4) }
  | 7 => ∃ d1 d2 : ℚ, |d1| ≤ 0.02 ∧ |d2| ≤ 0.02 ∧
      q = { p with
        borderDeltaL := jclamp (p.borderDeltaL + JsNum.num d1) 0.01 0.1
        dividerDeltaL := jclamp (p.dividerDeltaL + JsNum.num d2) 0.02 0.14 }
  | 8 => ∃ (ff : Option String) (d1 d2 : ℚ),
      (ff = some "primary" ∨ ff = some "accent" ∨ ff = none) ∧
      |d1| ≤ 0.03 ∧ |d2| ≤ 0.08 ∧
      q = { p with
        focusFrom := ff
        focusCBoost := jclamp (p.focusCBoost + JsNum.num d1) 0.02 0.16
        focusL := jclamp (p.focusL + JsNum.num d2) 0.25 0.85 }
  | 9 => ∃ d1 : ℚ, |d1| ≤ 15 ∧ q = { p with seedHue := mod360 (p.seedHue + JsNum.num d1) }
  | _ => False

theorem rngNext_eq_one {s : ℕ} (h : xorshift s = 4294967295) : (rngNext s).1 = 1 := by
  show ((xorshift s : ℤ) : ℚ) / 4294967295 = 1
  rw [h]
  norm_num

/-- The group-selector draw `rng.int(0, 9)` as a floor expression. -/
theorem rngInt09_eq (s : ℕ) : (rngInt s 0 9).1 = qfloor ((rngNext s).1 * 10) := by
  show qfloor ((rngNext s).1 * (((9 : ℤ) : ℚ) - ((0 : ℤ) : ℚ) + 1)) + 0 =
    qfloor ((rngNext s).1 * 10)
  norm_num

/-- `rng.pick` either reads out of range (JS `undefined`) or returns a list
element. -/
theorem rngPick_cases {α : Type} (arr : List α) (s : ℕ) :
    (rngPick arr s).1 = none ∨ ∃ x ∈ arr, (rngPick arr s).1 = some x := by
  have hval : (rngPick arr s).1 =
      if (rngInt s 0 ((arr.length : ℤ) - 1)).1 < 0 then none
      else arr.get? (rngInt s 0 ((arr.length : ℤ) - 1)).1.toNat := rfl
  rw [hval]
  split
  · left; rfl
  · rcases h : arr.get? (rngInt s 0 ((arr.length : ℤ) - 1)).1.toNat with - | x
    · left; rfl
    · right; exact ⟨x, List.get?_mem h, rfl⟩

theorem pickPA_mem (s : ℕ) :
    (rngPick ["primary", "accent"] s).1 = some "primary" ∨
      (rngPick ["primary", "accent"] s).1 = some "accent" ∨
      (rngPick ["primary", "accent"] s).1 = none := by
  rcases rngPick_cases ["primary", "accent"] s with h | ⟨x, hx, h⟩
  · right; right; exact h
  · simp only [List.mem_cons, List.mem_singleton, List.not_mem_nil, or_false] at hx
    rcases hx with rfl | rfl
    · left; exact h
    · right; left; exact h

/-- C7 (amended): whenever the group-selector draw is below 1 (equivalently
the updated xorshift state is not 2^32-1), `mutateParams` perturbs exactly
one of the ten groups as described by `mutGroupSpec` and copies all other
fields; on the measure-zero selector draw of exactly 1 the switch falls
through its `default` and the vector is returned entirely unchanged. -/
theorem mutateParams_frame (p : Params) (s : ℕ) :
    (xorshift s = 4294967295 → (mutateParams s p).1 = p) ∧
    (xorshift s ≠ 4294967295 → ∃ k < 10, mutGroupSpec k p (mutateParams s p).1) := by
  constructor
  · intro h
    have h1 : (rngInt s 0 9).1 = 10 := by
      rw [rngInt09_eq, rngNext_eq_one h]
      rw [qfloor_eq]
      norm_num
    simp only [mutateParams, h1]
    norm_num
  · intro hs
    have h0 := rngNext_nonneg s
    have h1 := rngNext_lt_one hs
    obtain ⟨c, hc, hc0, hc9⟩ : ∃ c : ℤ, (rngInt s 0 9).1 = c ∧ 0 ≤ c ∧ c ≤ 9 := by
      refine ⟨(rngInt s 0 9).1, rfl, ?_, ?_⟩
      · rw [rngInt09_eq, qfloor_eq]
        exact Int.floor_nonneg.mpr (by nlinarith)
      · rw [rngInt09_eq, qfloor_eq]
        have : (rngNext s).1 * 10 < 10 := by nlinarith
        have h10 : (⌊(rngNext s).1 * 10⌋ : ℤ) < 10 := Int.floor_lt.mpr (by exact_mod_cast this)
        omega
    interval_cases c
    · refine ⟨0, by norm_num, ?_⟩
      simp only [mutateParams, hc]
      norm_num
      exact ⟨_, _, _, rngFloat_abs_le _ (by norm_num), rngFloat_abs_le _ (by norm_num),
        rngFloat_abs_le _ (by norm_num), rfl⟩
    · refine ⟨1, by norm_num, ?_⟩
      simp only [mutateParams, hc]
      norm_num
      exact ⟨_, _, _, rngFloat_abs_le _ (by norm_num), rngFloat_abs_le _ (by norm_num),
        rngFloat_abs_le _ (by norm_num), rfl⟩
    · refine ⟨2, by norm_num, ?_⟩
      simp only [mutateParams, hc]
      norm_num
      exact ⟨_, _, _, rngFloat_abs_le _ (by norm_num), rngFloat_abs_le _ (by norm_num),
        rngFloat_abs_le _ (by norm_num), rfl⟩
    · refine ⟨3, by norm_num, ?_⟩
      simp only [mutateParams, hc]
      norm_num
      exact ⟨_, _, _, rngFloat_abs_le _ (by norm_num), rngFloat_abs_le _ (by norm_num),
        rngFloat_abs_le _ (by norm_num), rfl⟩
    · refine ⟨4, by norm_num, ?_⟩
      simp only [mutateParams, hc]
      norm_num
      exact ⟨_, _, rngFloat_abs_le _ (by norm_num), rngFloat_abs_le _ (by norm_num), rfl⟩
    · refine ⟨5, by norm_num, ?_⟩
      simp only [mutateParams, hc]
      norm_num
      exact ⟨_, _, _, _, _, rngFloat_abs_le _ (by norm_num), rngFloat_abs_le _ (by norm_num),
        rngFloat_abs_le _ (by norm_num), rngFloat_abs_le _ (by norm_num), rngFloat_abs_le _ (by norm_num), rfl⟩
    · refine ⟨6, by norm_num, ?_⟩
      simp only [mutateParams, hc]
      norm_num
      exact ⟨_, _, _, _, rngFloat_abs_le _ (by norm_num), rngFloat_abs_le _ (by norm_num),
        rngFloat_abs_le _ (by norm_num), rngFloat_abs_le _ (by norm_num), rfl⟩
    · refine ⟨7, by norm_num, ?_⟩
      simp only [mutateParams, hc]
      norm_num
      exact ⟨_, _, rngFloat_abs_le _ (by norm_num), rngFloat_abs_le _ (by norm_num), rfl⟩
    · refine ⟨8, by norm_num, ?_⟩
      simp only [mutateParams, hc]
      norm_num
      exact ⟨_, _, _, pickPA_mem _, rngFloat_abs_le _ (by norm_num),
        rngFloat_abs_le _ (by norm_num), rfl⟩
    · refine ⟨9, by norm_num, ?_⟩
      simp only [mutateParams, hc]
      norm_num
      exact ⟨_, rngFloat_abs_le _ (by norm_num), rfl⟩

/-- A concrete parameter vector whose clamped fields sit far outside every
clamp range (5) and whose hue fields sit outside [0,360) (720), so that no
group of `mutGroupSpec` can relate it to itself. -/
def c7bad : Params :=
  { seedHue := JsNum.num 720, neutralHue := JsNum.num 720, neutralC := JsNum.num 5
    bgL := JsNum.num 5, surfaceDeltaL := JsNum.num 5, surface2DeltaL := JsNum.num 5
    textPrimaryL := JsNum.num 5, textSecondaryL := JsNum.num 5
    textTertiaryL := JsNum.num 5
    secondaryHue := JsNum.num 720, secondaryC := JsNum.num 5, secondaryL := JsNum.num 5
    accentHue := JsNum.num 720, accentC := JsNum.num 5, accentL := JsNum.num 5
    successHue := JsNum.num 720, warningHue := JsNum.num 720
    dangerHue := JsNum.num 720, infoHue := JsNum.num 720
    semanticC := JsNum.num 5, successL := JsNum.num 5, warningL := JsNum.num 5
    dangerL := JsNum.num 5, infoL := JsNum.num 5
    borderDeltaL := JsNum.num 5, dividerDeltaL := JsNum.num 5
    focusFrom := none, focusCBoost := JsNum.num 5, focusL := JsNum.num 5 }

/-- Counterexample to C7 as stated: at seed state 1584200935 the selector
draw `rng.int(0, 9)` is 10 (the draw hits exactly 1), the `switch` falls
through every case, and `mutateParams` returns the vector entirely
unchanged — no group was perturbed, as the second conjunct certifies (a
vector outside all clamp/wrap ranges cannot satisfy any group contract
with itself). -/
theorem mutateParams_noop_counterexample :
    (mutateParams 1584200935 c7bad).1 = c7bad ∧
      ¬ ∃ k < 10, mutGroupSpec k c7bad c7bad := by
  refine ⟨by decide, ?_⟩
  rintro ⟨k, hk, hspec⟩
  interval_cases k
  · obtain ⟨d1, d2, d3, h1, h2, h3, heq⟩ := hspec
    have h' : jclamp (JsNum.num (5 + d1)) (JsNum.num 0) (JsNum.num 1) = JsNum.num 5 :=
      (congrArg Params.bgL heq).symm
    have := jclamp_mem (by norm_num) h'
    linarith [this.2]
  · obtain ⟨d1, d2, d3, h1, h2, h3, heq⟩ := hspec
    have h' : jclamp (JsNum.num (5 + d1)) (JsNum.num 0) (JsNum.num 1) = JsNum.num 5 :=
      (congrArg Params.textPrimaryL heq).symm
    have := jclamp_mem (by norm_num) h'
    linarith [this.2]
  · obtain ⟨d1, d2, d3, h1, h2, h3, heq⟩ := hspec
    have h' : (JsNum.num 720 : JsNum) = mod360 (JsNum.num (720 + d1)) :=
      congrArg Params.secondaryHue heq
    obtain ⟨r, hr, hr0, hr360⟩ := mod360_num_mem (720 + d1)
    rw [hr, JsNum.num.injEq] at h'
    linarith
  · obtain ⟨d1, d2, d3, h1, h2, h3, heq⟩ := hspec
    have h' : (JsNum.num 720 : JsNum) = mod360 (JsNum.num (720 + d1)) :=
      congrArg Params.accentHue heq
    obtain ⟨r, hr, hr0, hr360⟩ := mod360_num_mem (720 + d1)
    rw [hr, JsNum.num.injEq] at h'
    linarith
  · obtain ⟨d1, d2, h1, h2, heq⟩ := hspec
    have h' : (JsNum.num 720 : JsNum) = mod360 (JsNum.num (720 + d1)) :=
      congrArg Params.neutralHue heq
    obtain ⟨r, hr, hr0, hr360⟩ := mod360_num_mem (720 + d1)
    rw [hr, JsNum.num.injEq] at h'
    linarith
  · obtain ⟨d1, d2, d3, d4, d5, h1, h2, h3, h4, h5, heq⟩ := hspec
    have h' : jclamp (JsNum.num (5 + d1)) (JsNum.num 0.06) (JsNum.num 0.26) =
        JsNum.num 5 := (congrArg Params.semanticC heq).symm
    have := jclamp_mem (by norm_num) h'
    linarith [this.2]
  · obtain ⟨d1, d2, d3, d4, h1, h2, h3, h4, heq⟩ := hspec
    have h' : (JsNum.num 720 : JsNum) = mod360 (JsNum.num (720 + d1)) :=
      congrArg Params.successHue heq
    obtain ⟨r, hr, hr0, hr360⟩ := mod360_num_mem (720 + d1)
    rw [hr, JsNum.num.injEq] at h'
    linarith
  · obtain ⟨d1, d2, h1, h2, heq⟩ := hspec
    have h' : jclamp (JsNum.num (5 + d1)) (JsNum.num 0.01) (JsNum.num 0.1) =
        JsNum.num 5 := (congrArg Params.borderDeltaL heq).symm
    have := jclamp_mem (by norm_num) h'
    linarith [this.2]
  · obtain ⟨ff, d1, d2, hmem, h1, h2, heq⟩ := hspec
    have h' : jclamp (JsNum.num (5 + d1)) (JsNum.num 0.02) (JsNum.num 0.16) =
        JsNum.num 5 := (congrArg Params.focusCBoost heq).symm
    have := jclamp_mem (by norm_num) h'
    linarith [this.2]
  · obtain ⟨d1, h1, heq⟩ := hspec
    have h' : (JsNum.num 720 : JsNum) = mod360 (JsNum.num (720 + d1)) :=
      congrArg Params.seedHue heq
    obtain ⟨r, hr, hr0, hr360⟩ := mod360_num_mem (720 + d1)
    rw [hr, JsNum.num.injEq] at h'
    linarith

/-- Witness for C7: at state 1 the updated xorshift state is not 2^32-1,
and `mutateParams` indeed perturbs exactly one group of `c7bad`. -/
theorem mutateParams_frame_witness :
    xorshift 1 ≠ 4294967295 ∧ ∃ k < 10, mutGroupSpec k c7bad (mutateParams 1 c7bad).1 :=
  ⟨by decide, (mutateParams_frame c7bad 1).2 (by decide)⟩

/- ============================================================
   Claim C8
   ============================================================ -/

/-- JS "less than or equal" on scores, as a relation: equal (including a
NaN score staying NaN) or strictly `<` in the JS sense. -/
def jsLE (a b : JsNum) : Prop := a = b ∨ JsNum.lt a b = true

theorem jsLE_refl (a : JsNum) : jsLE a a := Or.inl rfl

theorem jslt_trans {a b c : JsNum} (h1 : JsNum.lt a b = true) (h2 : JsNum.lt b c = true) :
    JsNum.lt a c = true := by
  cases a <;> cases b <;> cases c <;> simp_all [JsNum.lt] <;> linarith

theorem jsLE_trans {a b c : JsNum} (h1 : jsLE a b) (h2 : jsLE b c) : jsLE a c := by
  rcases h1 with rfl | h1
  · exact h2
  · rcases h2 with rfl | h2
    · exact Or.inr h1
    · exact Or.inr (jslt_trans h1 h2)

/-- The best-score update `best = improved ? cur : best` (line 1083 with
`improved = cur > best`) agrees with `Math.max(best, cur)` as long as a NaN
current score forces a NaN best (which the loop preserves, since a NaN
candidate is never accepted over a numeric current one). -/
theorem bestUpdate_eq_jmax (best cur : JsNum) (h : cur = JsNum.nan → best = JsNum.nan) :
    (if JsNum.gt cur best then cur else best) = JsNum.jmax best cur := by
  cases best <;> cases cur <;> first | rfl | exact JsNum.noConfusion (h rfl)

theorem bestUpdate_mono (best cur : JsNum) :
    jsLE best (if JsNum.gt cur best then cur else best) := by
  by_cases h : JsNum.gt cur best = true
  · rw [if_pos h]
    exact Or.inr h
  · rw [if_neg h]
    exact Or.inl rfl

/-- A NaN score difference is never accepted: `delta >= 0` is false on NaN,
and `rng.next() < exp(NaN / ...)` compares against NaN, which is false. -/
theorem accept_nan_fst (F : RealFns) (t : ℚ) (r : ℕ) :
    (accept F JsNum.nan t r).1 = false := rfl

/-- One annealing iteration updates the best score to
`Math.max(best, curScore')`, preserves the "NaN current forces NaN best"
invariant, and never decreases the best score (in the `jsLE` sense). -/
theorem annealStep_best (ctx : AnnealCtx) (s s1 : LoopState)
    (h : annealStep ctx s = Except.ok s1)
    (hinv : s.curScore = JsNum.nan → s.bestScore = JsNum.nan) :
    s1.bestScore = JsNum.jmax s.bestScore s1.curScore ∧
      (s1.curScore = JsNum.nan → s1.bestScore = JsNum.nan) ∧
      jsLE s.bestScore s1.bestScore := by
  rw [annealStep] at h
  rw [exbind_ok] at h
  obtain ⟨nb, hnb, h⟩ := h
  rw [exbind_ok] at h
  obtain ⟨nr, hnr, h⟩ := h
  cases h
  dsimp only
  have hcnan :
      (if (accept ctx.F (nr.total - s.curScore) s.temperature
            (mutateParams s.rng s.curParams).2).1 = true
        then nr.total else s.curScore) = JsNum.nan →
        s.bestScore = JsNum.nan := by
    intro hnan
    by_cases hb : (accept ctx.F (nr.total - s.curScore) s.temperature
        (mutateParams s.rng s.curParams).2).1 = true
    · rw [if_pos hb] at hnan
      rw [hnan, JsNum.nan_sub, accept_nan_fst] at hb
      cases hb
    · rw [if_neg hb] at hnan
      exact hinv hnan
  refine ⟨bestUpdate_eq_jmax _ _ hcnan, ?_, bestUpdate_mono _ _⟩
  intro hnan
  rw [hnan, hcnan hnan]
  rfl

/-- Along `n` iterations of the loop: the NaN invariant is preserved, the
best score never decreases, and the final best score is the `Math.max`-fold
of the per-iteration accepted scores over the starting best score. -/
theorem annealIter_best (ctx : AnnealCtx) :
    ∀ (n : ℕ) (s sF : LoopState), annealIter ctx n s = Except.ok sF →
      (s.curScore = JsNum.nan → s.bestScore = JsNum.nan) →
      (sF.curScore = JsNum.nan → sF.bestScore = JsNum.nan) ∧
        jsLE s.bestScore sF.bestScore ∧
        ∃ tr, annealScores ctx n s = Except.ok tr ∧
          sF.bestScore = tr.foldl JsNum.jmax s.bestScore := by
  intro n
  induction n with
  | zero =>
      intro s sF h hinv
      cases h
      exact ⟨hinv, jsLE_refl _, [], rfl, rfl⟩
  | succ n ih =>
      intro s sF h hinv
      rw [annealIter] at h
      rw [exbind_ok] at h
      obtain ⟨s1, h1, h2⟩ := h
      obtain ⟨hmax1, hinv1, hmono1⟩ := annealStep_best ctx s s1 h1 hinv
      obtain ⟨hinvF, hmonoF, tr, htr, hfold⟩ := ih s1 sF h2 hinv1
      refine ⟨hinvF, jsLE_trans hmono1 hmonoF, s1.curScore :: tr, ?_, ?_⟩
      · rw [annealScores, exbind_ok]
        refine ⟨s1, h1, ?_⟩
        rw [exbind_ok]
        exact ⟨tr, htr, rfl⟩
      · rw [List.foldl_cons, ← hmax1]
        exact hfold

/-- `optimizeTheme` starts its loop with `best := current` (line 1056). -/
theorem annealInit_best_eq (ctx : AnnealCtx) (rng0 : ℕ) (s0 : LoopState)
    (h : annealInit ctx rng0 = Except.ok s0) : s0.bestScore = s0.curScore := by
  rw [annealInit] at h
  rw [exbind_ok] at h
  obtain ⟨b, hb, h⟩ := h
  rw [exbind_ok] at h
  obtain ⟨r, hr, h⟩ := h
  cases h
  rfl

/-- C8: across one `optimizeTheme` run the tracked best score starts as the
initial candidate's score, never decreases over any iteration (in the JS
order `jsLE`, which also covers a NaN score staying NaN), and the returned
score is the `Math.max`-fold of every accepted current score, the initial
candidate included, in trace order. -/
theorem optimizeTheme_best_monotone (F : RealFns) (mode primaryHexFixed : String)
    (opts : Options) (rng0 : ℕ) (seedHue : Option JsNum) (res : OptimizeResult) (rngF : ℕ)
    (h : optimizeTheme F mode primaryHexFixed opts rng0 seedHue = Except.ok (res, rngF)) :
    ∃ s0, annealInit (mkAnnealCtx F mode primaryHexFixed opts seedHue) rng0 = Except.ok s0 ∧
      s0.bestScore = s0.curScore ∧
      (∀ k sk sk1,
        annealIter (mkAnnealCtx F mode primaryHexFixed opts seedHue) k s0 = Except.ok sk →
        annealStep (mkAnnealCtx F mode primaryHexFixed opts seedHue) sk = Except.ok sk1 →
        jsLE sk.bestScore sk1.bestScore) ∧
      ∃ tr, annealScores (mkAnnealCtx F mode primaryHexFixed opts seedHue)
          (mkAnnealCtx F mode primaryHexFixed opts seedHue).iterations s0 = Except.ok tr ∧
        res.score = List.foldl JsNum.jmax s0.curScore tr := by
  rw [optimizeTheme] at h
  rw [exbind_ok] at h
  obtain ⟨s0, h0, h⟩ := h
  rw [exbind_ok] at h
  obtain ⟨sF, hF, h⟩ := h
  injection h with h'
  have hscore : sF.bestScore = res.score := congrArg (fun p => (Prod.fst p).score) h'
  have hinit := annealInit_best_eq _ _ _ h0
  have hinv0 : s0.curScore = JsNum.nan → s0.bestScore = JsNum.nan :=
    fun hn => hinit.trans hn
  obtain ⟨hinvF, hmono, tr, htr, hfold⟩ := annealIter_best _ _ s0 sF hF hinv0
  refine ⟨s0, h0, hinit, ?_, tr, htr, ?_⟩
  · intro k sk sk1 hk hstep
    obtain ⟨hinvk, -, -⟩ := annealIter_best _ k s0 sk hk hinv0
    exact (annealStep_best _ sk sk1 hstep hinvk).2.2
  · rw [hinit] at hfold
    rw [hscore] at hfold
    exact hfold

/-- A zero-iteration run used to witness C8 concretely. -/
def c8opts : Options :=
  { primaryHex := some "#5B5FF5", iterations := some 0, cvdModes := some ["none"],
    randomSeed := some 1 }

def c8res : OptimizeResult × ℕ :=
  (optimizeTheme idFns "light" "#5B5FF5" c8opts 1 none).toOption.getD default

/-- Witness for C8 at a concrete zero-iteration run. -/
theorem optimizeTheme_best_monotone_witness :
    optimizeTheme idFns "light" "#5B5FF5" c8opts 1 none = Except.ok (c8res.1, c8res.2) ∧
      ∃ s0, annealInit (mkAnnealCtx idFns "light" "#5B5FF5" c8opts none) 1 = Except.ok s0 ∧
        s0.bestScore = s0.curScore ∧
        (∀ k sk sk1,
          annealIter (mkAnnealCtx idFns "light" "#5B5FF5" c8opts none) k s0 = Except.ok sk →
          annealStep (mkAnnealCtx idFns "light" "#5B5FF5" c8opts none) sk = Except.ok sk1 →
          jsLE sk.bestScore sk1.bestScore) ∧
        ∃ tr, annealScores (mkAnnealCtx idFns "light" "#5B5FF5" c8opts none)
            (mkAnnealCtx idFns "light" "#5B5FF5" c8opts none).iterations s0 = Except.ok tr ∧
          c8res.1.score = List.foldl JsNum.jmax s0.curScore tr := by
  have hh : optimizeTheme idFns "light" "#5B5FF5" c8opts 1 none =
      Except.ok (c8res.1, c8res.2) := rfl
  exact ⟨hh, optimizeTheme_best_monotone idFns "light" "#5B5FF5" c8opts 1 none
    c8res.1 c8res.2 hh⟩

/- ============================================================
   Claim C2
   ============================================================ -/

/-- The CVD sub-score of `aggregateScore`  [lines 795-800], expressed over
the distances recorded in the report. -/
def cvdScoreOf (c : CvdReport) : JsNum :=
  0.55 * jclamp ((listMin (c.primaryDist.map (fun x => x.dE)) - 0.05) / 0.1) 0 1 +
    0.45 * jclamp ((listMin (c.semanticDist.map (fun x => x.minDE)) - 0.05) / 0.1) 0 1

/-- The semantic-separation sub-score of `aggregateScore`  [lines 802-804],
expressed over the "none"-mode separation report. -/
def semanticScoreOf (s : SemReport) : JsNum :=
  if s.ok then jclamp ((s.minDE - 0.06) / 0.08) 0 1 else 0

theorem jsLt_num (a b : ℚ) : JsNum.lt (JsNum.num a) (JsNum.num b) = true ↔ a < b := by
  simp [JsNum.lt]

theorem jclamp01_num (q : ℚ) :
    jclamp (JsNum.num q) 0 1 = JsNum.num (min 1 (max 0 q)) := by
  rw [jclamp, show (0 : JsNum) = JsNum.num 0 from rfl, show (1 : JsNum) = JsNum.num 1 from rfl,
    JsNum.jmax_num, JsNum.jmin_num]

/-- `aggregateTotal` on ordinary numbers is the corresponding rational
combination. -/
theorem aggregateTotal_num (w : Weights) (cs scs ts es hs cv ss pg hc hsp : ℚ) :
    aggregateTotal w (JsNum.num cs) (JsNum.num scs) (JsNum.num ts) (JsNum.num es)
      (JsNum.num hs) (JsNum.num cv) (JsNum.num ss) (JsNum.num pg) (JsNum.num hc)
      (JsNum.num hsp) =
      JsNum.num (w.contrast * cs + w.stateContrast * scs + w.toneSystem * ts +
        w.emphasis * es + w.harmony * hs + w.cvdRobust * cv + w.semanticSeparation * ss -
        w.gamutPenalty * pg - 4.0 * hc - 2.8 * hsp) := by
  rw [aggregateTotal, show (4.0 : JsNum) = JsNum.num 4.0 from rfl,
    show (2.8 : JsNum) = JsNum.num 2.8 from rfl]
  simp only [JsNum.mul_num, JsNum.add_num, JsNum.sub_num]

/-- The total recorded by `aggregateScore` is the weighted combination of
the sub-scores, each of which is recoverable from the returned report
(and the gamut count passed in)  [lines 786-821]. -/
theorem aggregateScore_total (F : RealFns) (tokens : TokenSet) (mode target : String)
    (weights : Weights) (gc : ℕ) (Li : LinfoT) (ms : List String) (sh : Option JsNum)
    (r : Report) (h : aggregateScore F tokens mode target weights gc Li ms sh = Except.ok r) :
    r.total = aggregateTotal weights
      (contrastScoreOf r.contrast.worstRatio (targetContrast target).normal)
      (contrastScoreOf r.states.worstRatio (targetContrast target).normal)
      (if r.tone.ok then 1.0 else 0.65)
      r.emphasis.primaryVsSurface.score
      (jclamp (JsNum.num r.harmony.score) 0 1)
      (cvdScoreOf r.cvd)
      (semanticScoreOf r.semantic)
      (if 0 < gc then jclamp (JsNum.num (((gc : ℤ) : ℚ) / 8)) 0 1 else 0)
      (if r.contrast.passAll then 0 else 0.85)
      (if r.states.passAll then 0 else 0.65) := by
  rw [aggregateScore] at h
  rw [exbind_ok] at h
  obtain ⟨cr, hcr, h⟩ := h
  rw [exbind_ok] at h
  obtain ⟨sr, hsr, h⟩ := h
  rw [exbind_ok] at h
  obtain ⟨em, hem, h⟩ := h
  rw [exbind_ok] at h
  obtain ⟨ha, hha, h⟩ := h
  rw [exbind_ok] at h
  obtain ⟨pd, hpd, h⟩ := h
  rw [exbind_ok] at h
  obtain ⟨sd, hsd, h⟩ := h
  rw [exbind_ok] at h
  obtain ⟨sn, hsn, h⟩ := h
  cases h
  rfl

theorem jsnum_lit_zero : (0 : JsNum) = JsNum.num 0 := rfl

theorem jsnum_lit_one : (1.0 : JsNum) = JsNum.num 1.0 := rfl

theorem jsnum_lit_p65 : (0.65 : JsNum) = JsNum.num 0.65 := rfl

theorem jsnum_lit_p85 : (0.85 : JsNum) = JsNum.num 0.85 := rfl

/-- C2 (amended): with the default weights, between two `aggregateScore`
runs sharing mode, target, gamut count, lightness summary, CVD-mode list
and seed hue, whose reports agree on every sub-score input (states, tone
verdict, emphasis score, harmony score, CVD distances, semantic
separation) and whose sub-scores are ordinary numbers (no NaN from
malformed inputs), if one run fails at least one base contrast check while
the other passes all of them, the failing run's total is strictly lower:
its 4.0 x 0.85 = 3.4 hard penalty exceeds the whole weighted contrast term
3.2 x clamp(.,0,1) it could at best recover. -/
theorem aggregate_hard_penalty_dominance (F : RealFns) (tA tB : TokenSet)
    (mode target : String) (gc : ℕ) (Li : LinfoT) (ms : List String) (sh : Option JsNum)
    (rA rB : Report)
    (hA : aggregateScore F tA mode target (defaultWeights none) gc Li ms sh = Except.ok rA)
    (hB : aggregateScore F tB mode target (defaultWeights none) gc Li ms sh = Except.ok rB)
    (hstates : rA.states = rB.states)
    (htone : rA.tone.ok = rB.tone.ok)
    (hemph : rA.emphasis.primaryVsSurface.score = rB.emphasis.primaryVsSurface.score)
    (hharm : rA.harmony.score = rB.harmony.score)
    (hcvd : rA.cvd = rB.cvd)
    (hsem : rA.semantic = rB.semantic)
    (hAfail : rA.contrast.passAll = false)
    (hBpass : rB.contrast.passAll = true)
    (hcsA : (contrastScoreOf rA.contrast.worstRatio (targetContrast target).normal).isNum
      = true)
    (hcsB : (contrastScoreOf rB.contrast.worstRatio (targetContrast target).normal).isNum
      = true)
    (hstN : (contrastScoreOf rB.states.worstRatio (targetContrast target).normal).isNum
      = true)
    (hemphN : rB.emphasis.primaryVsSurface.score.isNum = true)
    (hcvdN : (cvdScoreOf rB.cvd).isNum = true)
    (hsemN : (semanticScoreOf rB.semantic).isNum = true) :
    JsNum.lt rA.total rB.total = true := by
  have eA := aggregateScore_total F tA mode target (defaultWeights none) gc Li ms sh rA hA
  have eB := aggregateScore_total F tB mode target (defaultWeights none) gc Li ms sh rB hB
  rw [eA, eB, hstates, htone, hemph, hharm, hcvd, hsem, hAfail, hBpass]
  obtain ⟨a, hae⟩ := JsNum.isNum_iff.mp hcsA
  obtain ⟨b, hbe⟩ := JsNum.isNum_iff.mp hcsB
  obtain ⟨st, hste⟩ := JsNum.isNum_iff.mp hstN
  obtain ⟨es, hese⟩ := JsNum.isNum_iff.mp hemphN
  obtain ⟨cv, hcve⟩ := JsNum.isNum_iff.mp hcvdN
  obtain ⟨sm, hsme⟩ := JsNum.isNum_iff.mp hsemN
  have ⟨ha0, ha1⟩ := jclamp_mem (show (0:ℚ) ≤ 1 by norm_num) hae
  have ⟨hb0, hb1⟩ := jclamp_mem (show (0:ℚ) ≤ 1 by norm_num) hbe
  rw [hae, hbe, hste, hese, hcve, hsme]
  rw [if_neg (show ¬ (false = true) by simp), if_pos rfl]
  have h4 : (defaultWeights none).contrast = 3.2 := rfl
  by_cases hto : rB.tone.ok = true
  · rw [if_pos hto]
    by_cases hst2 : rB.states.passAll = true
    · rw [if_pos hst2]
      by_cases hgc : 0 < gc
      · rw [if_pos hgc]
        simp only [jclamp01_num]
        simp only [jsnum_lit_zero, jsnum_lit_one, jsnum_lit_p65, jsnum_lit_p85]
        rw [aggregateTotal_num, aggregateTotal_num, jsLt_num, h4]
        linarith
      · rw [if_neg hgc]
        simp only [jclamp01_num]
        simp only [jsnum_lit_zero, jsnum_lit_one, jsnum_lit_p65, jsnum_lit_p85]
        rw [aggregateTotal_num, aggregateTotal_num, jsLt_num, h4]
        linarith
    · rw [if_neg hst2]
      by_cases hgc : 0 < gc
      · rw [if_pos hgc]
        simp only [jclamp01_num]
        simp only [jsnum_lit_zero, jsnum_lit_one, jsnum_lit_p65, jsnum_lit_p85]
        rw [aggregateTotal_num, aggregateTotal_num, jsLt_num, h4]
        linarith
      · rw [if_neg hgc]
        simp only [jclamp01_num]
        simp only [jsnum_lit_zero, jsnum_lit_one, jsnum_lit_p65, jsnum_lit_p85]
        rw [aggregateTotal_num, aggregateTotal_num, jsLt_num, h4]
        linarith
  · rw [if_neg hto]
    by_cases hst2 : rB.states.passAll = true
    · rw [if_pos hst2]
      by_cases hgc : 0 < gc
      · rw [if_pos hgc]
        simp only [jclamp01_num]
        simp only [jsnum_lit_zero, jsnum_lit_one, jsnum_lit_p65, jsnum_lit_p85]
        rw [aggregateTotal_num, aggregateTotal_num, jsLt_num, h4]
        linarith
      · rw [if_neg hgc]
        simp only [jclamp01_num]
        simp only [jsnum_lit_zero, jsnum_lit_one, jsnum_lit_p65, jsnum_lit_p85]
        rw [aggregateTotal_num, aggregateTotal_num, jsLt_num, h4]
        linarith
    · rw [if_neg hst2]
      by_cases hgc : 0 < gc
      · rw [if_pos hgc]
        simp only [jclamp01_num]
        simp only [jsnum_lit_zero, jsnum_lit_one, jsnum_lit_p65, jsnum_lit_p85]
        rw [aggregateTotal_num, aggregateTotal_num, jsLt_num, h4]
        linarith
      · rw [if_neg hgc]
        simp only [jclamp01_num]
        simp only [jsnum_lit_zero, jsnum_lit_one, jsnum_lit_p65, jsnum_lit_p85]
        rw [aggregateTotal_num, aggregateTotal_num, jsLt_num, h4]
        linarith

/-- A token set for the C2 witness: every color is black or white so that
(under the identity oracle) each base check hits contrast 21 — except
`textPrimary`, which is the one varied field. -/
def c2tok (tp : String) : TokenSet :=
  { mode := "light"
    background := "#FFFFFF", surface := "#FFFFFF", surface2 := "#FFFFFF"
    textPrimary := tp, textSecondary := "#000000", textTertiary := "#000000"
    primary := "#000000", primaryText := "#FFFFFF"
    secondary := "#000000", secondaryText := "#FFFFFF"
    accent := "#000000", accentText := "#FFFFFF"
    border := "#000000", divider := "#000000", focusRing := "#000000"
    buttonPrimary :=
      { bg := "#000000", text := "#FFFFFF", hoverBg := "#000000", pressedBg := "#000000"
        disabledBg := "#000000", disabledText := "#FFFFFF" }
    buttonSecondary :=
      { bg := "#000000", text := "#FFFFFF", hoverBg := "#000000", pressedBg := "#000000"
        disabledBg := "#000000", disabledText := "#FFFFFF" }
    semantic :=
      { success :=
          { base := "#000000", onBaseText := "#FFFFFF", subtleBg := "#000000"
            subtleText := "#FFFFFF", border := "#000000", hover := "#000000"
            pressed := "#000000" }
        warning :=
          { base := "#000000", onBaseText := "#FFFFFF", subtleBg := "#000000"
            subtleText := "#FFFFFF", border := "#000000", hover := "#000000"
            pressed := "#000000" }
        danger :=
          { base := "#000000", onBaseText := "#FFFFFF", subtleBg := "#000000"
            subtleText := "#FFFFFF", border := "#000000", hover := "#000000"
            pressed := "#000000" }
        info :=
          { base := "#000000", onBaseText := "#FFFFFF", subtleBg := "#000000"
            subtleText := "#FFFFFF", border := "#000000", hover := "#000000"
            pressed := "#000000" } } }

def c2rA : Report :=
  (aggregateScore idFns (c2tok "#FFFFFF") "light" "AA" (defaultWeights none) 0 default
    ["none"] none).toOption.getD default

def c2rB : Report :=
  (aggregateScore idFns (c2tok "#000000") "light" "AA" (defaultWeights none) 0 default
    ["none"] none).toOption.getD default

/-- Witness for C2: white-on-white text fails the base checks and scores
strictly below the otherwise identical black-on-white set. -/
theorem aggregate_hard_penalty_dominance_witness :
    aggregateScore idFns (c2tok "#FFFFFF") "light" "AA" (defaultWeights none) 0 default
        ["none"] none = Except.ok c2rA ∧
      aggregateScore idFns (c2tok "#000000") "light" "AA" (defaultWeights none) 0 default
        ["none"] none = Except.ok c2rB ∧
      JsNum.lt c2rA.total c2rB.total = true := by
  have hA : aggregateScore idFns (c2tok "#FFFFFF") "light" "AA" (defaultWeights none) 0
      default ["none"] none = Except.ok c2rA := rfl
  have hB : aggregateScore idFns (c2tok "#000000") "light" "AA" (defaultWeights none) 0
      default ["none"] none = Except.ok c2rB := rfl
  refine ⟨hA, hB, aggregate_hard_penalty_dominance idFns (c2tok "#FFFFFF") (c2tok "#000000")
    "light" "AA" 0 default ["none"] none c2rA c2rB hA hB ?_ ?_ ?_ ?_ ?_ ?_ ?_ ?_ ?_ ?_ ?_
    ?_ ?_ ?_⟩ <;> decide

def c2rN : Report :=
  (aggregateScore idFns (c2tok "GGGGGG") "light" "AA" (defaultWeights none) 0 default
    ["none"] none).toOption.getD default

/-- Counterexample to C2 as stated: a token set whose `textPrimary` is the
length-6 non-hex string "GGGGGG" is accepted by the parser (claim C3),
fails every textPrimary check with a NaN ratio, and agrees with the
passing set on every other sub-score input — yet its NaN total is NOT
strictly lower than the passing total, because every JS comparison against
NaN is false.  Strict dominance needs the failing set's sub-scores to be
actual numbers. -/
theorem aggregate_nan_not_lower_counterexample :
    aggregateScore idFns (c2tok "GGGGGG") "light" "AA" (defaultWeights none) 0 default
        ["none"] none = Except.ok c2rN ∧
      c2rN.states = c2rB.states ∧
      c2rN.tone.ok = c2rB.tone.ok ∧
      c2rN.emphasis.primaryVsSurface.score = c2rB.emphasis.primaryVsSurface.score ∧
      c2rN.harmony.score = c2rB.harmony.score ∧
      c2rN.cvd = c2rB.cvd ∧
      c2rN.semantic = c2rB.semantic ∧
      c2rN.contrast.passAll = false ∧
      c2rB.contrast.passAll = true ∧
      JsNum.lt c2rN.total c2rB.total = false := by
  refine ⟨rfl, ?_, ?_, ?_, ?_, ?_, ?_, ?_, ?_, ?_⟩ <;> decide

/- ============================================================
   Claim C6
   ============================================================ -/

/-- An uppercase hexadecimal digit (the alphabet of emitted color strings). -/
def isUpperHexDigit (c : Char) : Bool :=
  (decide ('0' ≤ c) && decide (c ≤ '9')) || (decide ('A' ≤ c) && decide (c ≤ 'F'))

/-- A valid emitted color: `'#'` followed by exactly six uppercase hex
digits (the spec's `#RRGGBB` shape). -/
def isValidHexColor (s : String) : Bool :=
  match s.data with
  | c :: cs => decide (c = '#') && decide (cs.length = 6) && cs.all isUpperHexDigit
  | [] => false

/-- A valid *input* color for `primaryHex`: after trimming and stripping an
optional leading `#`, exactly six hex digits (either case). -/
def hexInputOk (s : String) : Bool :=
  decide ((stripHexInput s).length = 6) && (stripHexInput s).all isHexDigitChar

theorem char_eq_of_toNat {c : Char} (n : ℕ) (hn : c.toNat = n) : c = Char.ofNat n := by
  have h2 := Char.ofNat_toNat c
  rw [hn] at h2
  exact h2.symm

theorem upperHex_enum {c : Char} (h : isUpperHexDigit c = true) :
    c ∈ (['0','1','2','3','4','5','6','7','8','9','A','B','C','D','E','F'] : List Char) := by
  have hp : ('0' ≤ c ∧ c ≤ '9') ∨ ('A' ≤ c ∧ c ≤ 'F') := by
    simp only [isUpperHexDigit, Bool.or_eq_true, Bool.and_eq_true, decide_eq_true_eq] at h
    exact h
  have hv : (48 ≤ c.toNat ∧ c.toNat ≤ 57) ∨ (65 ≤ c.toNat ∧ c.toNat ≤ 70) := hp
  rcases hv with ⟨h1, h2⟩ | ⟨h1, h2⟩ <;> interval_cases hcc : c.toNat <;>
    rw [char_eq_of_toNat _ hcc] <;> decide

theorem hexDigit_enum {c : Char} (h : isHexDigitChar c = true) :
    c ∈ (['0','1','2','3','4','5','6','7','8','9','A','B','C','D','E','F',
      'a','b','c','d','e','f'] : List Char) := by
  have hp : ('0' ≤ c ∧ c ≤ '9') ∨ ('a' ≤ c ∧ c ≤ 'f') ∨ ('A' ≤ c ∧ c ≤ 'F') := by
    simp only [isHexDigitChar, Bool.or_eq_true, Bool.and_eq_true, decide_eq_true_eq] at h
    tauto
  have hv : (48 ≤ c.toNat ∧ c.toNat ≤ 57) ∨ (97 ≤ c.toNat ∧ c.toNat ≤ 102) ∨
      (65 ≤ c.toNat ∧ c.toNat ≤ 70) := hp
  rcases hv with ⟨h1, h2⟩ | ⟨h1, h2⟩ | ⟨h1, h2⟩ <;> interval_cases hcc : c.toNat <;>
    rw [char_eq_of_toNat _ hcc] <;> decide

theorem upperHex_not_ws {c : Char} (h : isUpperHexDigit c = true) :
    c.isWhitespace = false := by
  have hm := upperHex_enum h
  simp only [List.mem_cons, List.not_mem_nil, or_false] at hm
  rcases hm with rfl|rfl|rfl|rfl|rfl|rfl|rfl|rfl|rfl|rfl|rfl|rfl|rfl|rfl|rfl|rfl <;> decide

theorem hexDigit_not_ws {c : Char} (h : isHexDigitChar c = true) :
    c.isWhitespace = false := by
  have hm := hexDigit_enum h
  simp only [List.mem_cons, List.not_mem_nil, or_false] at hm
  rcases hm with rfl|rfl|rfl|rfl|rfl|rfl|rfl|rfl|rfl|rfl|rfl|rfl|rfl|rfl|rfl|rfl|rfl|rfl|
    rfl|rfl|rfl|rfl <;> decide

theorem upperHex_upChar_id {c : Char} (h : isUpperHexDigit c = true) : upChar c = c := by
  have hm := upperHex_enum h
  simp only [List.mem_cons, List.not_mem_nil, or_false] at hm
  rcases hm with rfl|rfl|rfl|rfl|rfl|rfl|rfl|rfl|rfl|rfl|rfl|rfl|rfl|rfl|rfl|rfl <;> decide

theorem hexDigit_upChar_upper {c : Char} (h : isHexDigitChar c = true) :
    isUpperHexDigit (upChar c) = true := by
  have hm := hexDigit_enum h
  simp only [List.mem_cons, List.not_mem_nil, or_false] at hm
  rcases hm with rfl|rfl|rfl|rfl|rfl|rfl|rfl|rfl|rfl|rfl|rfl|rfl|rfl|rfl|rfl|rfl|rfl|rfl|
    rfl|rfl|rfl|rfl <;> decide

theorem upperHex_isHexDigit {c : Char} (h : isUpperHexDigit c = true) :
    isHexDigitChar c = true := by
  have hm := upperHex_enum h
  simp only [List.mem_cons, List.not_mem_nil, or_false] at hm
  rcases hm with rfl|rfl|rfl|rfl|rfl|rfl|rfl|rfl|rfl|rfl|rfl|rfl|rfl|rfl|rfl|rfl <;> decide

theorem qfloor_intCast (m : ℤ) : qfloor ((m : ℤ) : ℚ) = m := by
  rw [qfloor_eq]
  exact Int.floor_intCast m

/-- The two-digit padded hex rendering of every byte value consists of two
hex digits (checked exhaustively), already composed with the final
`.toUpperCase()`. -/
theorem hex2OfNat_upper_valid :
    ∀ n, n < 256 → (((hex2OfNat n).data.map upChar).length = 2 ∧
      ((hex2OfNat n).data.map upChar).all isUpperHexDigit = true) := by decide

/-- One channel of `rgbToHex`: clamp, scale, round — always a byte value. -/
theorem round_clamp_lt_256 (q : ℚ) : ∃ n : ℕ, n < 256 ∧
    toHex2 (JsNum.round (jclamp (JsNum.num q) 0 1 * 255)) = hex2OfNat n := by
  rw [jclamp01_num]
  have hc0 : (0:ℚ) ≤ min 1 (max 0 q) := le_min (by norm_num) (le_max_left 0 q)
  have hc1 : min 1 (max 0 q) ≤ 1 := min_le_left 1 _
  rw [show (255 : JsNum) = JsNum.num 255 from rfl, JsNum.mul_num]
  have hr : JsNum.round (JsNum.num (min 1 (max 0 q) * 255)) =
      JsNum.num ((qfloor (min 1 (max 0 q) * 255 + 1/2) : ℤ) : ℚ) := rfl
  rw [hr]
  refine ⟨(qfloor (min 1 (max 0 q) * 255 + 1/2)).toNat, ?_, ?_⟩
  · have hlt : qfloor (min 1 (max 0 q) * 255 + 1/2) < 256 := by
      rw [qfloor_eq]
      apply Int.floor_lt.mpr
      push_cast
      nlinarith
    omega
  · show hex2OfNat (Int.toNat (qfloor ((qfloor (min 1 (max 0 q) * 255 + 1/2) : ℤ) : ℚ))) = _
    rw [qfloor_intCast]

theorem upChar_hash : upChar '#' = '#' := by decide

theorem validHex_of_pieces (n1 n2 n3 : ℕ) (h1 : n1 < 256) (h2 : n2 < 256) (h3 : n3 < 256) :
    isValidHexColor (jsToUpper ("#" ++ hex2OfNat n1 ++ hex2OfNat n2 ++ hex2OfNat n3))
      = true := by
  obtain ⟨l1, a1⟩ := hex2OfNat_upper_valid n1 h1
  obtain ⟨l2, a2⟩ := hex2OfNat_upper_valid n2 h2
  obtain ⟨l3, a3⟩ := hex2OfNat_upper_valid n3 h3
  have hd : (jsToUpper ("#" ++ hex2OfNat n1 ++ hex2OfNat n2 ++ hex2OfNat n3)).data =
      '#' :: ((hex2OfNat n1).data.map upChar ++ ((hex2OfNat n2).data.map upChar ++
        (hex2OfNat n3).data.map upChar)) := by
    show (("#" ++ hex2OfNat n1 ++ hex2OfNat n2 ++ hex2OfNat n3).data.map upChar) = _
    show ((('#' :: (hex2OfNat n1).data ++ (hex2OfNat n2).data) ++
      (hex2OfNat n3).data).map upChar) = _
    simp only [List.map_append, List.cons_append, List.map_cons, upChar_hash,
      List.append_assoc]
  simp only [isValidHexColor]
  rw [hd]
  simp only [List.length_append, l1, l2, l3, List.all_append, a1, a2, a3,
    Bool.and_self, Bool.and_true, decide_eq_true_eq, Bool.and_eq_true]

/-- `rgbToHex` of ordinary (non-NaN) channels is a valid `#RRGGBB` color. -/
theorem rgbToHex_valid {rgb : Rgb} (hr : rgb.r.isNum = true) (hg : rgb.g.isNum = true)
    (hb : rgb.b.isNum = true) : isValidHexColor (rgbToHex rgb) = true := by
  obtain ⟨qr, er⟩ := JsNum.isNum_iff.mp hr
  obtain ⟨qg, eg⟩ := JsNum.isNum_iff.mp hg
  obtain ⟨qb, eb⟩ := JsNum.isNum_iff.mp hb
  obtain ⟨n1, hn1, he1⟩ := round_clamp_lt_256 qr
  obtain ⟨n2, hn2, he2⟩ := round_clamp_lt_256 qg
  obtain ⟨n3, hn3, he3⟩ := round_clamp_lt_256 qb
  simp only [rgbToHex]
  rw [er, eg, eb, he1, he2, he3]
  exact validHex_of_pieces n1 n2 n3 hn1 hn2 hn3

theorem isNum_linearToSrgb (F : RealFns) {c : JsNum} (hc : c.isNum = true) :
    (linearToSrgb F c).isNum = true := by
  rw [linearToSrgb]
  split
  · exact JsNum.isNum_mul rfl hc
  · exact JsNum.isNum_sub (JsNum.isNum_mul rfl (isNum_jlift _ hc)) rfl

/-- `oklchToHex` of an all-ordinary LCH triple emits a valid `#RRGGBB`. -/
theorem oklchToHex_valid (F : RealFns) {l : Lch} (hL : l.L.isNum = true)
    (hC : l.C.isNum = true) (hH : l.H.isNum = true) :
    isValidHexColor (oklchToHex F l).hex = true := by
  rcases l with ⟨L, C, H⟩
  obtain ⟨qL, rfl⟩ := JsNum.isNum_iff.mp hL
  obtain ⟨qC, rfl⟩ := JsNum.isNum_iff.mp hC
  obtain ⟨qH, rfl⟩ := JsNum.isNum_iff.mp hH
  refine rgbToHex_valid ?_ ?_ ?_
  · exact isNum_linearToSrgb F rfl
  · exact isNum_linearToSrgb F rfl
  · exact isNum_linearToSrgb F rfl

/-- A NaN hue poisons every channel: the emitted string is the (invalid)
`"#NANNANNAN"`, for any lightness and chroma. -/
theorem oklchToHex_H_nan (F : RealFns) (l : Lch) (hH : l.H = JsNum.nan) :
    (oklchToHex F l).hex = "#NANNANNAN" := by
  rcases l with ⟨L, C, H⟩
  cases hH
  cases L <;> cases C <;> rfl

theorem hexToRgb_nanhex : hexToRgb "#NANNANNAN" = Except.error "Invalid hex: #NANNANNAN" :=
  rfl

theorem isValidHexColor_iff {s : String} : isValidHexColor s = true ↔
    ∃ cs, s.data = '#' :: cs ∧ cs.length = 6 ∧ cs.all isUpperHexDigit = true := by
  constructor
  · intro h
    cases hs : s.data with
    | nil => rw [isValidHexColor, hs] at h; cases h
    | cons c cs =>
        rw [isValidHexColor, hs] at h
        simp only [Bool.and_eq_true, decide_eq_true_eq] at h
        obtain ⟨⟨hc, hlen⟩, hall⟩ := h
        subst hc
        exact ⟨cs, rfl, hlen, hall⟩
  · rintro ⟨cs, hd, hlen, hall⟩
    rw [isValidHexColor, hd]
    simp only [Bool.and_eq_true, decide_eq_true_eq]
    exact ⟨⟨trivial, hlen⟩, hall⟩

theorem trimlist_valid (cs : List Char) (hlen : cs.length = 6)
    (hall : cs.all isUpperHexDigit = true) :
    ((('#' :: cs).dropWhile Char.isWhitespace).reverse.dropWhile
      Char.isWhitespace).reverse = '#' :: cs := by
  rw [List.dropWhile_cons, if_neg (by decide)]
  rcases hcs : cs.reverse with - | ⟨c0, rest⟩
  · have hnil : cs = [] := by simpa using congrArg List.reverse hcs
    rw [hnil] at hlen
    cases hlen
  · have hc0 : isUpperHexDigit c0 = true := by
      have hm : c0 ∈ cs := by
        have hm2 : c0 ∈ cs.reverse := by rw [hcs]; exact List.mem_cons_self _ _
        simpa using hm2
      exact List.all_eq_true.mp hall c0 hm
    rw [List.reverse_cons, hcs, List.cons_append, List.dropWhile_cons,
      if_neg (by simp [upperHex_not_ws hc0]), ← List.cons_append, ← hcs,
      ← List.reverse_cons, List.reverse_reverse]

theorem validHex_jsTrim {s : String} (h : isValidHexColor s = true) : jsTrim s = s := by
  obtain ⟨cs, hd, hlen, hall⟩ := isValidHexColor_iff.mp h
  rcases s with ⟨data⟩
  simp only [String.data] at hd
  rw [jsTrim]
  simp only [String.data]
  rw [hd, trimlist_valid cs hlen hall]

theorem parseIntHex_pair_all :
    ∀ c1 ∈ (['0','1','2','3','4','5','6','7','8','9','A','B','C','D','E','F'] : List Char),
      ∀ c2 ∈ (['0','1','2','3','4','5','6','7','8','9','A','B','C','D','E','F'] : List Char),
        (parseIntHex [c1, c2]).isNum = true := by decide

theorem hexToRgb_of_valid {s : String} (h : isValidHexColor s = true) :
    ∃ rgb : Rgb, hexToRgb s = Except.ok rgb ∧ rgb.r.isNum = true ∧ rgb.g.isNum = true ∧
      rgb.b.isNum = true := by
  obtain ⟨cs, hd, hlen, hall⟩ := isValidHexColor_iff.mp h
  rcases cs with - | ⟨c1, - | ⟨c2, - | ⟨c3, - | ⟨c4, - | ⟨c5, - | ⟨c6, - | ⟨c7, t⟩⟩⟩⟩⟩⟩⟩ <;>
    simp only [List.length_cons, List.length_nil] at hlen <;> try omega
  have hstrip : stripHexInput s = [c1, c2, c3, c4, c5, c6] := by
    rw [stripHexInput, validHex_jsTrim h, hd]
    rfl
  simp only [List.all_cons, Bool.and_eq_true] at hall
  obtain ⟨m1, m2, m3, m4, m5, m6, -⟩ := hall
  have p12 := parseIntHex_pair_all c1 (upperHex_enum m1) c2 (upperHex_enum m2)
  have p34 := parseIntHex_pair_all c3 (upperHex_enum m3) c4 (upperHex_enum m4)
  have p56 := parseIntHex_pair_all c5 (upperHex_enum m5) c6 (upperHex_enum m6)
  obtain ⟨q1, e1⟩ := JsNum.isNum_iff.mp p12
  obtain ⟨q2, e2⟩ := JsNum.isNum_iff.mp p34
  obtain ⟨q3, e3⟩ := JsNum.isNum_iff.mp p56
  rw [hexToRgb, hstrip]
  refine ⟨{ r := parseIntHex [c1, c2] / 255, g := parseIntHex [c3, c4] / 255,
            b := parseIntHex [c5, c6] / 255 }, ?_, ?_, ?_, ?_⟩
  · rw [if_neg (by simp)]
    rfl
  · show (parseIntHex [c1, c2] / 255).isNum = true
    rw [e1, show (255 : JsNum) = JsNum.num 255 from rfl, JsNum.div_num _ _ (by norm_num)]
    rfl
  · show (parseIntHex [c3, c4] / 255).isNum = true
    rw [e2, show (255 : JsNum) = JsNum.num 255 from rfl, JsNum.div_num _ _ (by norm_num)]
    rfl
  · show (parseIntHex [c5, c6] / 255).isNum = true
    rw [e3, show (255 : JsNum) = JsNum.num 255 from rfl, JsNum.div_num _ _ (by norm_num)]
    rfl

theorem isNum_srgbToLinear (F : RealFns) {c : JsNum} (hc : c.isNum = true) :
    (srgbToLinear F c).isNum = true := by
  obtain ⟨q, rfl⟩ := JsNum.isNum_iff.mp hc
  rw [srgbToLinear]
  split
  · rw [show (12.92 : JsNum) = JsNum.num 12.92 from rfl, JsNum.div_num _ _ (by norm_num)]
    rfl
  · rw [show (0.055 : JsNum) = JsNum.num 0.055 from rfl,
      show (1.055 : JsNum) = JsNum.num 1.055 from rfl, JsNum.add_num,
      JsNum.div_num _ _ (by norm_num), jlift_num]
    rfl

theorem hexToOklch_of_valid (F : RealFns) {s : String} (h : isValidHexColor s = true) :
    ∃ l : Lch, hexToOklch F s = Except.ok l ∧ l.L.isNum = true ∧ l.C.isNum = true ∧
      l.H.isNum = true := by
  obtain ⟨rgb, hok, h1, h2, h3⟩ := hexToRgb_of_valid h
  obtain ⟨x1, e1⟩ := JsNum.isNum_iff.mp (isNum_srgbToLinear F h1)
  obtain ⟨x2, e2⟩ := JsNum.isNum_iff.mp (isNum_srgbToLinear F h2)
  obtain ⟨x3, e3⟩ := JsNum.isNum_iff.mp (isNum_srgbToLinear F h3)
  have hlin : rgbToLinearRgb F rgb =
      { r := JsNum.num x1, g := JsNum.num x2, b := JsNum.num x3 } := by
    rw [rgbToLinearRgb, e1, e2, e3]
  refine ⟨oklabToOklch F (linearRgbToOklab F (rgbToLinearRgb F rgb)), ?_, ?_, ?_, ?_⟩
  · rw [hexToOklch, hok]
    rfl
  · rw [hlin]
    rfl
  · rw [hlin]
    rfl
  · rw [hlin]
    show (mod360 (jatan2 F.atan2Deg
      (linearRgbToOklab F { r := JsNum.num x1, g := JsNum.num x2, b := JsNum.num x3 }).b
      (linearRgbToOklab F { r := JsNum.num x1, g := JsNum.num x2, b := JsNum.num x3 }).a)).isNum
      = true
    apply isNum_mod360
    rfl

theorem upperHex_ne_hash {c : Char} (h : isUpperHexDigit c = true) : c ≠ '#' := by
  have hm := upperHex_enum h
  simp only [List.mem_cons, List.not_mem_nil, or_false] at hm
  rcases hm with rfl|rfl|rfl|rfl|rfl|rfl|rfl|rfl|rfl|rfl|rfl|rfl|rfl|rfl|rfl|rfl <;> decide

theorem normalizeHex_of_valid {s : String} (h : isValidHexColor s = true) :
    normalizeHex s = s := by
  obtain ⟨cs, hd, hlen, hall⟩ := isValidHexColor_iff.mp h
  have hup : jsToUpper s = s := by
    rcases s with ⟨data⟩
    simp only [String.data] at hd
    rw [jsToUpper]
    simp only [String.data]
    rw [hd]
    simp only [List.map_cons, upChar_hash]
    have hmap : cs.map upChar = cs := by
      have hcg : ∀ c ∈ cs, upChar c = c :=
        fun c hc => upperHex_upChar_id (List.all_eq_true.mp hall c hc)
      rw [List.map_congr_left hcg]
      exact List.map_id cs
    rw [hmap]
  rw [normalizeHex, validHex_jsTrim h, hup]
  rw [if_pos (by rw [hd]; rfl)]

/-- Normalizing a well-formed input (six hex digits, optional `#`, either
case) yields a valid `#RRGGBB` string. -/
theorem normalizeHex_valid_input {s : String} (h : hexInputOk s = true) :
    isValidHexColor (normalizeHex s) = true := by
  simp only [hexInputOk, Bool.and_eq_true, decide_eq_true_eq] at h
  obtain ⟨hlen, hall⟩ := h
  rcases ht : (jsTrim s).data with - | ⟨c0, rest⟩
  · rw [stripHexInput, ht] at hlen
    cases hlen
  · by_cases hc0 : c0 = '#'
    · subst hc0
      have hstrip : stripHexInput s = rest := by
        rw [stripHexInput, ht]
        rfl
      rw [hstrip] at hlen hall
      rw [normalizeHex]
      have hdata : (jsToUpper (jsTrim s)).data = '#' :: rest.map upChar := by
        rw [jsToUpper]
        simp only [String.data]
        rw [ht]
        simp only [List.map_cons, upChar_hash]
      rw [if_pos (by rw [hdata]; rfl)]
      apply isValidHexColor_iff.mpr
      refine ⟨rest.map upChar, hdata, by simp [hlen], ?_⟩
      apply List.all_eq_true.mpr
      intro c hc
      obtain ⟨c', hc', rfl⟩ := List.mem_map.mp hc
      exact hexDigit_upChar_upper (List.all_eq_true.mp hall c' hc')
    · have hstrip : stripHexInput s = c0 :: rest := by
        rw [stripHexInput, ht]
        split
        · rename_i heq
          injection heq with h1 h2
          exact absurd h1 hc0
        · rfl
      rw [hstrip] at hlen hall
      have hc0hex : isHexDigitChar c0 = true := by
        have := List.all_eq_true.mp hall c0 (List.mem_cons_self _ _)
        exact this
      rw [normalizeHex]
      have hdata : (jsToUpper (jsTrim s)).data = upChar c0 :: rest.map upChar := by
        rw [jsToUpper]
        simp only [String.data]
        rw [ht]
        simp only [List.map_cons]
      rw [if_neg (by
        rw [hdata]
        simp only [List.head?]
        intro hcon
        have : upChar c0 = '#' := by
          injection hcon
        exact upperHex_ne_hash (hexDigit_upChar_upper hc0hex) this)]
      apply isValidHexColor_iff.mpr
      have hdata2 : (jsToUpper ("#" ++ jsToUpper (jsTrim s))).data =
          '#' :: (upChar c0 :: rest.map upChar).map upChar := by
        show (("#" ++ jsToUpper (jsTrim s)).data.map upChar) = _
        show (('#' :: (jsToUpper (jsTrim s)).data).map upChar) = _
        rw [hdata]
        simp only [List.map_cons, upChar_hash]
      refine ⟨(upChar c0 :: rest.map upChar).map upChar, hdata2, ?_, ?_⟩
      · simp only [List.length_map, List.length_cons]
        simp only [List.length_cons] at hlen
        omega
      · apply List.all_eq_true.mpr
        intro c hc
        obtain ⟨c', hc', rfl⟩ := List.mem_map.mp hc
        have hc'u : isUpperHexDigit c' = true := by
          rcases List.mem_cons.mp hc' with rfl | hmem
          · exact hexDigit_upChar_upper hc0hex
          · obtain ⟨c'', hc'', rfl⟩ := List.mem_map.mp hmem
            have : c'' ∈ c0 :: rest := List.mem_cons_of_mem _ hc''
            exact hexDigit_upChar_upper (List.all_eq_true.mp hall c'' this)
        rw [upperHex_upChar_id hc'u]
        exact hc'u

theorem JsNum.isNum_neg {a : JsNum} (h : a.isNum = true) : (-a).isNum = true := by
  obtain ⟨q, rfl⟩ := JsNum.isNum_iff.mp h
  rfl

/-- The `lch(...)` constructor feeds `oklchToHex` valid coordinates whenever
its three inputs are ordinary numbers. -/
theorem oklchToHex_lch_valid (F : RealFns) {L C H : JsNum} (hL : L.isNum = true)
    (hC : C.isNum = true) (hH : H.isNum = true) :
    isValidHexColor (oklchToHex F (lch L C H)).hex = true := by
  apply oklchToHex_valid
  · exact isNum_jclamp 0 1 hL
  · exact JsNum.isNum_jmax rfl hC
  · exact isNum_mod360 hH

theorem pickTextOn_valid (F : RealFns) {h s : String}
    (hp : pickTextOn F h = Except.ok s) : isValidHexColor s = true := by
  rw [pickTextOn] at hp
  rw [exbind_ok] at hp
  obtain ⟨rgb, -, hp⟩ := hp
  cases hp
  split <;> decide

theorem deriveBorderFrom_valid (F : RealFns) {ref mode s : String} {deltaL hue : JsNum}
    (href : isValidHexColor ref = true) (hd : deltaL.isNum = true) (hh : hue.isNum = true)
    (hok : deriveBorderFrom F ref mode deltaL hue = Except.ok s) :
    isValidHexColor s = true := by
  obtain ⟨l', hl', hL, hC, hH⟩ := hexToOklch_of_valid F href
  rw [deriveBorderFrom] at hok
  rw [exbind_ok] at hok
  obtain ⟨l, hl, hok⟩ := hok
  rw [hl'] at hl
  injection hl with hl
  subst hl
  cases hok
  apply oklchToHex_lch_valid
  · apply isNum_jclamp
    apply JsNum.isNum_add hL
    split
    · exact JsNum.isNum_neg hd
    · exact hd
  · exact JsNum.isNum_jmin rfl (JsNum.isNum_jmax rfl hC)
  · exact hh

theorem deriveFillStates_valid (F : RealFns) {base mode : String} {fs : FillStates}
    (hb : isValidHexColor base = true)
    (hok : deriveFillStates F base mode = Except.ok fs) :
    isValidHexColor fs.hover = true ∧ isValidHexColor fs.pressed = true ∧
      isValidHexColor fs.disabled = true := by
  obtain ⟨l', hl', hL, hC, hH⟩ := hexToOklch_of_valid F hb
  rw [deriveFillStates] at hok
  rw [exbind_ok] at hok
  obtain ⟨l, hl, hok⟩ := hok
  rw [hl'] at hl
  injection hl with hl
  subst hl
  cases hok
  have hdir : (if mode = "light" then (-1 : JsNum) else 1).isNum = true := by
    split <;> rfl
  refine ⟨?_, ?_, ?_⟩
  · exact oklchToHex_lch_valid F
      (isNum_jclamp _ _ (JsNum.isNum_add hL (JsNum.isNum_mul hdir rfl))) hC hH
  · exact oklchToHex_lch_valid F
      (isNum_jclamp _ _ (JsNum.isNum_add hL (JsNum.isNum_mul hdir rfl))) hC hH
  · refine oklchToHex_lch_valid F (isNum_jclamp _ _ ?_) (JsNum.isNum_jmin hC rfl) hH
    split <;> rfl

theorem deriveSubtleBg_valid (F : RealFns) {base bg mode s : String}
    (hb : isValidHexColor base = true) (hg : isValidHexColor bg = true)
    (hok : deriveSubtleBg F base bg mode = Except.ok s) : isValidHexColor s = true := by
  obtain ⟨lb, hlb, hbL, hbC, hbH⟩ := hexToOklch_of_valid F hb
  obtain ⟨lg, hlg, hgL, hgC, hgH⟩ := hexToOklch_of_valid F hg
  rw [deriveSubtleBg] at hok
  rw [exbind_ok] at hok
  obtain ⟨l1, hl1, hok⟩ := hok
  rw [exbind_ok] at hok
  obtain ⟨l2, hl2, hok⟩ := hok
  rw [hlb] at hl1
  injection hl1 with hl1
  subst hl1
  rw [hlg] at hl2
  injection hl2 with hl2
  subst hl2
  cases hok
  refine oklchToHex_lch_valid F (isNum_jclamp _ _ ?_)
    (JsNum.isNum_jmin rfl (JsNum.isNum_jmax rfl (JsNum.isNum_mul hbC rfl))) hbH
  split
  · exact JsNum.isNum_jmax (JsNum.isNum_sub hgL rfl) rfl
  · exact JsNum.isNum_jmin (JsNum.isNum_add hgL rfl) rfl

theorem deriveFocusRing_valid (F : RealFns) {fromHex mode s : String} {cBoost targetL : JsNum}
    (hf : isValidHexColor fromHex = true) (hcb : cBoost.isNum = true)
    (htl : targetL.isNum = true)
    (hok : deriveFocusRing F fromHex mode cBoost targetL = Except.ok s) :
    isValidHexColor s = true := by
  obtain ⟨l', hl', hL, hC, hH⟩ := hexToOklch_of_valid F hf
  rw [deriveFocusRing] at hok
  rw [exbind_ok] at hok
  obtain ⟨l, hl, hok⟩ := hok
  rw [hl'] at hl
  injection hl with hl
  subst hl
  cases hok
  exact oklchToHex_lch_valid F (isNum_jclamp _ _ htl)
    (isNum_jclamp _ _ (JsNum.isNum_add hC hcb)) hH

theorem buildSemanticStates_valid (F : RealFns) {baseHex bgHex mode : String}
    {g : SemanticStates} (hb : isValidHexColor baseHex = true)
    (hg : isValidHexColor bgHex = true)
    (hok : buildSemanticStates F baseHex bgHex mode = Except.ok g) :
    isValidHexColor g.base = true ∧ isValidHexColor g.onBaseText = true ∧
      isValidHexColor g.subtleBg = true ∧ isValidHexColor g.subtleText = true ∧
      isValidHexColor g.border = true ∧ isValidHexColor g.hover = true ∧
      isValidHexColor g.pressed = true := by
  rw [buildSemanticStates, normalizeHex_of_valid hb] at hok
  obtain ⟨lb, hlb, hbL, hbC, hbH⟩ := hexToOklch_of_valid F hb
  rw [exbind_ok] at hok
  obtain ⟨obt, hobt, hok⟩ := hok
  rw [exbind_ok] at hok
  obtain ⟨sb, hsb, hok⟩ := hok
  rw [exbind_ok] at hok
  obtain ⟨l, hl, hok⟩ := hok
  rw [exbind_ok] at hok
  obtain ⟨bd, hbd, hok⟩ := hok
  rw [exbind_ok] at hok
  obtain ⟨st, hst, hok⟩ := hok
  rw [hlb] at hl
  injection hl with hl
  subst hl
  cases hok
  have hsbv : isValidHexColor sb = true := deriveSubtleBg_valid F hb hg hsb
  obtain ⟨hh, hp, hd⟩ := deriveFillStates_valid F hb hst
  exact ⟨hb, pickTextOn_valid F hobt, hsbv, by rw [normalizeHex_of_valid hb]; exact hb,
    deriveBorderFrom_valid F hsbv (show (0.04 : JsNum).isNum = true from rfl) hbH hbd,
    hh, hp⟩

/-- The loop invariant on parameter vectors: every lightness/chroma/delta
field and the four semantic hues are ordinary numbers.  (The seed, neutral,
secondary and accent hues may be NaN when a malformed-but-length-6 seed hex
leaks NaN, and `focusFrom` may be JS `undefined`.) -/
def paramsOk (p : Params) : Prop :=
  p.neutralC.isNum = true ∧ p.bgL.isNum = true ∧ p.surfaceDeltaL.isNum = true ∧
  p.surface2DeltaL.isNum = true ∧ p.textPrimaryL.isNum = true ∧
  p.textSecondaryL.isNum = true ∧ p.textTertiaryL.isNum = true ∧
  p.secondaryC.isNum = true ∧ p.secondaryL.isNum = true ∧ p.accentC.isNum = true ∧
  p.accentL.isNum = true ∧ p.successHue.isNum = true ∧ p.warningHue.isNum = true ∧
  p.dangerHue.isNum = true ∧ p.infoHue.isNum = true ∧ p.semanticC.isNum = true ∧
  p.successL.isNum = true ∧ p.warningL.isNum = true ∧ p.dangerL.isNum = true ∧
  p.infoL.isNum = true ∧ p.borderDeltaL.isNum = true ∧ p.dividerDeltaL.isNum = true ∧
  p.focusCBoost.isNum = true ∧ p.focusL.isNum = true

/-- Parameter vectors reachable through the optimizer: an `initParams` draw
followed by any number of `mutateParams` steps. -/
inductive ReachableParams (F : RealFns) : Params → Prop where
  | init : ∀ (r : ℕ) (mode : String) (sh : Option String) (pv sc : Bool),
      ReachableParams F (initParams F r mode sh pv sc).1
  | mutate : ∀ (p : Params) (s : ℕ), ReachableParams F p →
      ReachableParams F (mutateParams s p).1

theorem initParams_paramsOk (F : RealFns) (r : ℕ) (mode : String) (sh : Option String)
    (pv sc : Bool) : paramsOk (initParams F r mode sh pv sc).1 := by
  refine ⟨rfl, rfl, rfl, ?_, rfl, rfl, rfl, rfl, rfl, rfl, rfl, ?_, ?_, ?_, ?_, rfl, rfl,
    rfl, rfl, rfl, rfl, rfl, rfl, rfl⟩
  · have he : (initParams F r mode sh pv sc).1.surface2DeltaL =
        (initParamsStage1 F r mode sh).1.surface2DeltaL := rfl
    rw [he]
    simp only [initParamsStage1]
    rw [show (0.05 : JsNum) = JsNum.num 0.05 from rfl,
      show (0.18 : JsNum) = JsNum.num 0.18 from rfl, JsNum.add_num]
    exact isNum_jclamp _ _ rfl
  · have he : (initParams F r mode sh pv sc).1.successHue =
        (initParamsStage3 mode pv sc (initParamsStage2 mode pv
          (initParamsStage1 F r mode sh))).1.successHue := rfl
    rw [he]
    cases sc
    · rfl
    · simp only [initParamsStage3, reduceIte]
      apply isNum_mod360
      rfl
  · have he : (initParams F r mode sh pv sc).1.warningHue =
        (initParamsStage3 mode pv sc (initParamsStage2 mode pv
          (initParamsStage1 F r mode sh))).1.warningHue := rfl
    rw [he]
    cases sc
    · rfl
    · simp only [initParamsStage3, reduceIte]
      apply isNum_mod360
      rfl
  · have he : (initParams F r mode sh pv sc).1.dangerHue =
        (initParamsStage3 mode pv sc (initParamsStage2 mode pv
          (initParamsStage1 F r mode sh))).1.dangerHue := rfl
    rw [he]
    cases sc
    · rfl
    · simp only [initParamsStage3, reduceIte]
      apply isNum_mod360
      rfl
  · have he : (initParams F r mode sh pv sc).1.infoHue =
        (initParamsStage3 mode pv sc (initParamsStage2 mode pv
          (initParamsStage1 F r mode sh))).1.infoHue := rfl
    rw [he]
    cases sc
    · rfl
    · simp only [initParamsStage3, reduceIte]
      apply isNum_mod360
      rfl

theorem mutateParams_paramsOk (s : ℕ) (p : Params) (hp : paramsOk p) :
    paramsOk (mutateParams s p).1 := by
  obtain ⟨h1, h2, h3, h4, h5, h6, h7, h8, h9, h10, h11, h12, h13, h14, h15, h16, h17, h18, h19, h20, h21, h22, h23, h24⟩ := hp
  rw [mutateParams]
  by_cases hc0 : (rngInt s 0 9).1 = 0
  · rw [if_pos hc0]
    exact ⟨h1, isNum_jclamp _ _ (JsNum.isNum_add h2 rfl), isNum_jclamp _ _
      (JsNum.isNum_add h3 rfl), isNum_jclamp _ _ (JsNum.isNum_add h4 rfl), h5, h6, h7, h8,
      h9, h10, h11, h12, h13, h14, h15, h16, h17, h18, h19, h20, h21, h22, h23, h24⟩
  rw [if_neg hc0]
  by_cases hc1 : (rngInt s 0 9).1 = 1
  · rw [if_pos hc1]
    exact ⟨h1, h2, h3, h4, isNum_jclamp _ _ (JsNum.isNum_add h5 rfl), isNum_jclamp _ _
      (JsNum.isNum_add h6 rfl), isNum_jclamp _ _ (JsNum.isNum_add h7 rfl), h8, h9, h10, h11,
      h12, h13, h14, h15, h16, h17, h18, h19, h20, h21, h22, h23, h24⟩
  rw [if_neg hc1]
  by_cases hc2 : (rngInt s 0 9).1 = 2
  · rw [if_pos hc2]
    exact ⟨h1, h2, h3, h4, h5, h6, h7, isNum_jclamp _ _ (JsNum.isNum_add h8 rfl),
      isNum_jclamp _ _ (JsNum.isNum_add h9 rfl), h10, h11, h12, h13, h14, h15, h16, h17,
      h18, h19, h20, h21, h22, h23, h24⟩
  rw [if_neg hc2]
  by_cases hc3 : (rngInt s 0 9).1 = 3
  · rw [if_pos hc3]
    exact ⟨h1, h2, h3, h4, h5, h6, h7, h8, h9, isNum_jclamp _ _ (JsNum.isNum_add h10 rfl),
      isNum_jclamp _ _ (JsNum.isNum_add h11 rfl), h12, h13, h14, h15, h16, h17, h18, h19,
      h20, h21, h22, h23, h24⟩
  rw [if_neg hc3]
  by_cases hc4 : (rngInt s 0 9).1 = 4
  · rw [if_pos hc4]
    exact ⟨isNum_jclamp _ _ (JsNum.isNum_add h1 rfl), h2, h3, h4, h5, h6, h7, h8, h9, h10,
      h11, h12, h13, h14, h15, h16, h17, h18, h19, h20, h21, h22, h23, h24⟩
  rw [if_neg hc4]
  by_cases hc5 : (rngInt s 0 9).1 = 5
  · rw [if_pos hc5]
    exact ⟨h1, h2, h3, h4, h5, h6, h7, h8, h9, h10, h11, h12, h13, h14, h15, isNum_jclamp
      _ _ (JsNum.isNum_add h16 rfl), isNum_jclamp _ _ (JsNum.isNum_add h17 rfl),
      isNum_jclamp _ _ (JsNum.isNum_add h18 rfl), isNum_jclamp _ _ (JsNum.isNum_add h19
      rfl), isNum_jclamp _ _ (JsNum.isNum_add h20 rfl), h21, h22, h23, h24⟩
  rw [if_neg hc5]
  by_cases hc6 : (rngInt s 0 9).1 = 6
  · rw [if_pos hc6]
    exact ⟨h1, h2, h3, h4, h5, h6, h7, h8, h9, h10, h11, isNum_mod360 (JsNum.isNum_add h12
      rfl), isNum_mod360 (JsNum.isNum_add h13 rfl), isNum_mod360 (JsNum.isNum_add h14 rfl),
      isNum_mod360 (JsNum.isNum_add h15 rfl), h16, h17, h18, h19, h20, h21, h22, h23, h24⟩
  rw [if_neg hc6]
  by_cases hc7 : (rngInt s 0 9).1 = 7
  · rw [if_pos hc7]
    exact ⟨h1, h2, h3, h4, h5, h6, h7, h8, h9, h10, h11, h12, h13, h14, h15, h16, h17,
      h18, h19, h20, isNum_jclamp _ _ (JsNum.isNum_add h21 rfl), isNum_jclamp _ _
      (JsNum.isNum_add h22 rfl), h23, h24⟩
  rw [if_neg hc7]
  by_cases hc8 : (rngInt s 0 9).1 = 8
  · rw [if_pos hc8]
    exact ⟨h1, h2, h3, h4, h5, h6, h7, h8, h9, h10, h11, h12, h13, h14, h15, h16, h17,
      h18, h19, h20, h21, h22, isNum_jclamp _ _ (JsNum.isNum_add h23 rfl), isNum_jclamp _ _
      (JsNum.isNum_add h24 rfl)⟩
  rw [if_neg hc8]
  by_cases hc9 : (rngInt s 0 9).1 = 9
  · rw [if_pos hc9]
    exact ⟨h1, h2, h3, h4, h5, h6, h7, h8, h9, h10, h11, h12, h13, h14, h15, h16, h17,
      h18, h19, h20, h21, h22, h23, h24⟩
  rw [if_neg hc9]
  exact ⟨h1, h2, h3, h4, h5, h6, h7, h8, h9, h10, h11, h12, h13, h14, h15, h16, h17, h18, h19, h20, h21, h22, h23, h24⟩

theorem reachable_paramsOk {F : RealFns} {p : Params} (h : ReachableParams F p) :
    paramsOk p := by
  induction h with
  | init r mode sh pv sc => exact initParams_paramsOk F r mode sh pv sc
  | mutate p s hp ih => exact mutateParams_paramsOk s p ih

theorem hexToOklch_nanhex (F : RealFns) :
    hexToOklch F "#NANNANNAN" = Except.error "Invalid hex: #NANNANNAN" := rfl

theorem pickTextOn_nanhex (F : RealFns) {s : String}
    (h : pickTextOn F "#NANNANNAN" = Except.ok s) : False := by
  rw [pickTextOn] at h
  rw [exbind_ok] at h
  obtain ⟨r, habs, -⟩ := h
  rw [hexToRgb_nanhex] at habs
  cases habs

/-- A token whose hex is re-read by `pickTextOn` forces its hue to be an
ordinary number: a NaN hue would emit `"#NANNANNAN"`, which the re-parse
rejects, so `buildTokens` could not have returned `ok`. -/
theorem pickTextOn_lch_forces_hue (F : RealFns) {L C H : JsNum} {s : String}
    (h : pickTextOn F (oklchToHex F (lch L C H)).hex = Except.ok s) : H.isNum = true := by
  by_contra hn
  rw [Bool.not_eq_true] at hn
  have hnan : (lch L C H).H = JsNum.nan := mod360_not_num hn
  rw [oklchToHex_H_nan F _ hnan] at h
  exact pickTextOn_nanhex F h

theorem buildSemanticStates_forces_bg (F : RealFns) {baseHex mode : String}
    {g : SemanticStates}
    (h : buildSemanticStates F baseHex "#NANNANNAN" mode = Except.ok g) : False := by
  rw [buildSemanticStates] at h
  rw [exbind_ok] at h
  obtain ⟨t1, -, h⟩ := h
  rw [exbind_ok] at h
  obtain ⟨t2, hsub, -⟩ := h
  rw [deriveSubtleBg] at hsub
  rw [exbind_ok] at hsub
  obtain ⟨t3, -, hsub⟩ := hsub
  rw [exbind_ok] at hsub
  obtain ⟨t4, habs, -⟩ := hsub
  rw [hexToOklch_nanhex] at habs
  cases habs

/-- The background hex is re-read while building the semantic groups, which
forces the neutral hue to be an ordinary number. -/
theorem buildSemantic_forces_hue (F : RealFns) {baseHex mode : String}
    {g : SemanticStates} {L C H : JsNum}
    (h : buildSemanticStates F baseHex (oklchToHex F (lch L C H)).hex mode =
      Except.ok g) : H.isNum = true := by
  by_contra hn
  rw [Bool.not_eq_true] at hn
  have hnan : (lch L C H).H = JsNum.nan := mod360_not_num hn
  rw [oklchToHex_H_nan F _ hnan] at h
  exact buildSemanticStates_forces_bg F h

/-- All six colors of a button group are valid. -/
def buttonAllValid (b : ButtonTokens) : Prop :=
  isValidHexColor b.bg = true ∧ isValidHexColor b.text = true ∧
  isValidHexColor b.hoverBg = true ∧ isValidHexColor b.pressedBg = true ∧
  isValidHexColor b.disabledBg = true ∧ isValidHexColor b.disabledText = true

/-- All seven colors of a semantic state group are valid. -/
def semAllValid (s : SemanticStates) : Prop :=
  isValidHexColor s.base = true ∧ isValidHexColor s.onBaseText = true ∧
  isValidHexColor s.subtleBg = true ∧ isValidHexColor s.subtleText = true ∧
  isValidHexColor s.border = true ∧ isValidHexColor s.hover = true ∧
  isValidHexColor s.pressed = true

/-- Every color-valued field of a `TokenSet`, nested groups included, is a
valid `#RRGGBB` string. -/
def tokenSetAllValid (t : TokenSet) : Prop :=
  isValidHexColor t.background = true ∧ isValidHexColor t.surface = true ∧
  isValidHexColor t.surface2 = true ∧ isValidHexColor t.textPrimary = true ∧
  isValidHexColor t.textSecondary = true ∧ isValidHexColor t.textTertiary = true ∧
  isValidHexColor t.primary = true ∧ isValidHexColor t.primaryText = true ∧
  isValidHexColor t.secondary = true ∧ isValidHexColor t.secondaryText = true ∧
  isValidHexColor t.accent = true ∧ isValidHexColor t.accentText = true ∧
  isValidHexColor t.border = true ∧ isValidHexColor t.divider = true ∧
  isValidHexColor t.focusRing = true ∧ buttonAllValid t.buttonPrimary ∧
  buttonAllValid t.buttonSecondary ∧ semAllValid t.semantic.success ∧
  semAllValid t.semantic.warning ∧ semAllValid t.semantic.danger ∧
  semAllValid t.semantic.info

/-- C6: for parameters reachable through `initParams`/`mutateParams`, either
mode, and a well-formed primary hex, every color field of a successfully
built token set — nested button and semantic groups included — is a valid
`#RRGGBB` string. -/
theorem buildTokens_all_valid (F : RealFns) (p : Params) (mode primaryHexFixed : String)
    (out : BuildResult) (hre : ReachableParams F p)
    (hmode : mode = "light" ∨ mode = "dark")
    (hin : hexInputOk primaryHexFixed = true)
    (hok : buildTokens F p mode primaryHexFixed = Except.ok out) :
    tokenSetAllValid out.tokens := by
  obtain ⟨h1, h2, h3, h4, h5, h6, h7, h8, h9, h10, h11, h12, h13, h14, h15, h16, h17,
    h18, h19, h20, h21, h22, h23, h24⟩ := reachable_paramsOk hre
  have hprim : isValidHexColor (normalizeHex primaryHexFixed) = true :=
    normalizeHex_valid_input hin
  rw [buildTokens] at hok
  rw [exbind_ok] at hok
  obtain ⟨lp, hlp, hok⟩ := hok
  rw [exbind_ok] at hok
  obtain ⟨bord, hbord, hok⟩ := hok
  rw [exbind_ok] at hok
  obtain ⟨divi, hdivi, hok⟩ := hok
  rw [exbind_ok] at hok
  obtain ⟨fr, hfr, hok⟩ := hok
  rw [exbind_ok] at hok
  obtain ⟨pt, hpt, hok⟩ := hok
  rw [exbind_ok] at hok
  obtain ⟨ps, hps, hok⟩ := hok
  rw [exbind_ok] at hok
  obtain ⟨st2, hst2, hok⟩ := hok
  rw [exbind_ok] at hok
  obtain ⟨ss, hss, hok⟩ := hok
  rw [exbind_ok] at hok
  obtain ⟨gS, hgS, hok⟩ := hok
  rw [exbind_ok] at hok
  obtain ⟨gW, hgW, hok⟩ := hok
  rw [exbind_ok] at hok
  obtain ⟨gD, hgD, hok⟩ := hok
  rw [exbind_ok] at hok
  obtain ⟨gI, hgI, hok⟩ := hok
  rw [exbind_ok] at hok
  obtain ⟨at2, hat2, hok⟩ := hok
  cases hok
  have hneuH : p.neutralHue.isNum = true := buildSemantic_forces_hue F hgS
  have hsecH : p.secondaryHue.isNum = true := pickTextOn_lch_forces_hue F hst2
  have haccH : p.accentHue.isNum = true := pickTextOn_lch_forces_hue F hat2
  have hbgv := oklchToHex_lch_valid F h2 h1 hneuH
  have hsurfite : (if mode = "light" then -p.surfaceDeltaL else p.surfaceDeltaL).isNum
      = true := by
    split
    · exact JsNum.isNum_neg h3
    · exact h3
  have hsurf2ite : (if mode = "light" then -p.surface2DeltaL else p.surface2DeltaL).isNum
      = true := by
    split
    · exact JsNum.isNum_neg h4
    · exact h4
  have hsurfv := oklchToHex_lch_valid F (isNum_jclamp 0 1 (JsNum.isNum_add h2 hsurfite))
    (JsNum.isNum_mul h1 (show ((1.05 : JsNum)).isNum = true from rfl)) hneuH
  have hsurf2v := oklchToHex_lch_valid F (isNum_jclamp 0 1 (JsNum.isNum_add h2 hsurf2ite))
    (JsNum.isNum_mul h1 (show ((1.1 : JsNum)).isNum = true from rfl)) hneuH
  have htpv := oklchToHex_lch_valid F h5
    (JsNum.isNum_mul h1 (show ((0.12 : JsNum)).isNum = true from rfl)) hneuH
  have htsv := oklchToHex_lch_valid F h6
    (JsNum.isNum_mul h1 (show ((0.14 : JsNum)).isNum = true from rfl)) hneuH
  have httv := oklchToHex_lch_valid F h7
    (JsNum.isNum_mul h1 (show ((0.16 : JsNum)).isNum = true from rfl)) hneuH
  have hsecv := oklchToHex_lch_valid F h9 h8 hsecH
  have haccv := oklchToHex_lch_valid F h11 h10 haccH
  have hsuccv := oklchToHex_lch_valid F h17 h16 h12
  have hwarnv := oklchToHex_lch_valid F h18 h16 h13
  have hdangv := oklchToHex_lch_valid F h19 h16 h14
  have hinfov := oklchToHex_lch_valid F h20 h16 h15
  have hbordv := deriveBorderFrom_valid F hsurfv h21 hneuH hbord
  have hdiviv := deriveBorderFrom_valid F hsurf2v h22 hneuH hdivi
  have hfsrcv : isValidHexColor
      (if p.focusFrom = some "primary" then normalizeHex primaryHexFixed
       else (oklchToHex F (lch p.accentL p.accentC p.accentHue)).hex) = true := by
    split
    · exact hprim
    · exact haccv
  have hfrv := deriveFocusRing_valid F hfsrcv h23 h24 hfr
  have hptv := pickTextOn_valid F hpt
  obtain ⟨hpsh, hpsp, hpsd⟩ := deriveFillStates_valid F hprim hps
  have hstv := pickTextOn_valid F hst2
  obtain ⟨hssh, hssp, hssd⟩ := deriveFillStates_valid F hsecv hss
  have hpdt : isValidHexColor (if mode = "light" then "#9AA0A6" else "#6B7280") = true := by
    split <;> decide
  have hgSv := buildSemanticStates_valid F hsuccv hbgv hgS
  have hgWv := buildSemanticStates_valid F hwarnv hbgv hgW
  have hgDv := buildSemanticStates_valid F hdangv hbgv hgD
  have hgIv := buildSemanticStates_valid F hinfov hbgv hgI
  exact ⟨hbgv, hsurfv, hsurf2v, htpv, htsv, httv, hprim, hptv, hsecv, hstv, haccv,
    pickTextOn_valid F hat2, hbordv, hdiviv, hfrv,
    ⟨hprim, hptv, hpsh, hpsp, hpsd, hpdt⟩,
    ⟨hsecv, hstv, hssh, hssp, hssd, hpdt⟩,
    hgSv, hgWv, hgDv, hgIv⟩

def c6p : Params := (initParams idFns 1 "light" none true true).1

def c6out : BuildResult :=
  (buildTokens idFns c6p "light" "#5B5FF5").toOption.getD default

/-- Witness for C6 at a concrete reachable parameter draw. -/
theorem buildTokens_all_valid_witness :
    buildTokens idFns c6p "light" "#5B5FF5" = Except.ok c6out ∧
      tokenSetAllValid c6out.tokens := by
  have hh : buildTokens idFns c6p "light" "#5B5FF5" = Except.ok c6out := rfl
  exact ⟨hh, buildTokens_all_valid idFns c6p "light" "#5B5FF5" c6out
    (ReachableParams.init 1 "light" none true true) (Or.inl rfl) (by decide) hh⟩
